import Mathlib

/-!
Verification of the XLA Triton GEMM IR emitter
(`xla/service/gpu/ir_emitter_triton.cc`).

The development is a shallow embedding of the matmul-to-kernel-program
lowering: the configuration/resource checks and the structure of the
emitted kernel program are translated into executable Lean definitions,
and the stated properties of the lowering are proved about them.

Conventions used throughout:
* machine integers are modelled as `Nat`/`Int`; the quantities involved
  are small enough that no overflow occurs on the C++ side for the
  ranges the theorems quantify over, with one deliberate exception: the
  32-bit `int` product in the grid-size check of line 552, which is
  modelled by the two's-complement wrapping function `wrap32`;
* `CHECK`-style fatal assertions are modelled as the error value
  `EmitErr.checkFail` (an unrecoverable abort), while
  `ResourceExhausted` statuses are `EmitErr.resourceExhausted` —
  keeping the two failure kinds distinguishable;
* emitted MLIR values are modelled by the expression tree `Expr`;
  a C++ `nullptr` `Value` (absent mask / fill) is `Expr.nullv`.
-/

/-- Element types produced by `TritonType` (`ir_emitter_triton.cc:96-120`).
`PRED` is treated as `S8` there, so it needs no separate constructor. -/
inductive PrimTy where
  | f64
  | f32
  | f16
  | bf16
  | i64
  | i32
  | i16
  | i8
deriving Repr, DecidableEq, Inhabited

/-- `Type::getIntOrFloatBitWidth` for the types above. -/
def bitWidth : PrimTy → Nat
  | .f64 => 64
  | .f32 => 32
  | .f16 => 16
  | .bf16 => 16
  | .i64 => 64
  | .i32 => 32
  | .i16 => 16
  | .i8 => 8

/-- Data type to which `dot()` inputs are converted
(`ir_emitter_triton.cc:515-522`).  `dot_ty` is initialised to `f32` and
the `if`/`else if` chain only ever assigns `f32`, `bf16` or `f16`. -/
def dot_ty (lhs_ty rhs_ty : PrimTy) : PrimTy :=
  if lhs_ty = .f32 ∨ rhs_ty = .f32 then .f32
  else if lhs_ty = .bf16 ∨ rhs_ty = .bf16 then .bf16
  else if lhs_ty = .f16 ∨ rhs_ty = .f16 then .f16
  else .f32

/-- Accumulator type (`ir_emitter_triton.cc:532-535`):
`(root_ty.isF64() && dot_ty.isF64()) ? f64 : f32`. -/
def acc_ty (root_ty dotTy : PrimTy) : PrimTy :=
  if root_ty = .f64 ∧ dotTy = .f64 then .f64 else .f32

/-- Failure kinds of the lowering.  `resourceExhausted` is the typed,
catchable status; `checkFail` models a fatal `CHECK`/`LOG(FATAL)` abort. -/
inductive EmitErr where
  | resourceExhausted (msg : String)
  | checkFail (msg : String)
deriving Repr, DecidableEq, Inhabited

/-- Is a lowering outcome the typed, catchable `ResourceExhausted` status? -/
def isResourceExhausted {α : Type} : Except EmitErr α → Bool
  | .error (.resourceExhausted _) => true
  | _ => false

/-- Is a lowering outcome the fatal `CHECK`-abort kind? -/
def isCheckFail {α : Type} : Except EmitErr α → Bool
  | .error (.checkFail _) => true
  | _ => false

/-- The externally supplied tiling configuration
(`AutotuneResult::TritonGemmKey`). -/
structure TritonGemmConfig where
  block_m : Nat
  block_n : Nat
  block_k : Nat
  split_k : Nat
  num_warps : Nat
  num_stages : Nat
deriving Repr, DecidableEq, Inhabited

/-- Inputs that `MatMulImpl` extracts from the dot instruction and the
`DotFusionAnalysis` before any emission happens: element types, the
iteration counts/strides of the relevant `IterSpec` entries, the output
shape and physical layout, and the operand/output element counts. -/
structure DotInfo where
  lhs_ty : PrimTy
  rhs_ty : PrimTy
  root_ty : PrimTy
  /-- `dot_instr->operand(0)->shape().dimensions(lhs_contracting_dim)`. -/
  lhs_contracting_size : Nat
  /-- `analysis.IterSpec(0, lhs_noncontracting_dim_idx)[0].count`. -/
  m_minor : Nat
  /-- `analysis.IterSpec(1, rhs_noncontracting_dim_idx)[0].count`. -/
  n : Nat
  /-- whether `analysis.IterSpec(0, lhs_noncontracting_dim_idx)` has two
  entries (split LHS non-contracting dimension). -/
  lhs_nc_split : Bool
  /-- whether a true batch dimension is present
  (`dims.lhs_batch_dimensions_size() - have_split_k`). -/
  have_batch : Bool
  /-- `IterSpec(0, lhs_noncontracting_dim_idx)[1].count` (major split part). -/
  lhs_nc_major_count : Nat
  /-- `IterSpec(0, lhs_noncontracting_dim_idx)[1].stride`. -/
  lhs_nc_major_stride : Int
  lhs_batch_count : Nat
  rhs_batch_count : Nat
  lhs_batch_stride : Int
  rhs_batch_stride : Int
  stride_lhs_m : Int
  stride_lhs_k : Int
  stride_rhs_k : Int
  stride_rhs_n : Int
  /-- `dot_instr->shape().dimensions(i)`, indexed by logical dimension. -/
  out_dims : List Nat
  /-- `dot_instr->shape().layout().minor_to_major()`. -/
  out_minor_to_major : List Nat
  /-- `ShapeUtil::ElementsIn(dot_instr->operand(0)->shape())`. -/
  lhs_elements : Nat
  /-- `ShapeUtil::ElementsIn(dot_instr->operand(1)->shape())`. -/
  rhs_elements : Nat
  /-- `ShapeUtil::ElementsIn(dot_instr->shape())`. -/
  out_elements : Nat
  /-- `hlo_lhs_param->parameter_number()`. -/
  lhs_param_number : Nat
  /-- `hlo_rhs_param->parameter_number()`. -/
  rhs_param_number : Nat
deriving Repr, DecidableEq, Inhabited

/-- Grid extents per kernel launch and the thread-block extents. -/
structure Dim3 where
  x : Nat
  y : Nat
  z : Nat
deriving Repr, DecidableEq, Inhabited

/-- `LaunchDimensions` as returned to the caller; `sharedMemBytes` is
populated by `SetSharedMemBytes` in `TritonWrapper`. -/
structure LaunchDimensions where
  grid : Dim3
  block : Dim3
  sharedMemBytes : Nat := 0
deriving Repr, DecidableEq, Inhabited

/-- Modelled from the spec: the fixed warp size of the target device used
in the thread-block computation `config.num_warps() * WarpSize()`; the
helper `WarpSize()` itself lives outside the provided sources. -/
def WarpSize : Nat := 32

/-- `constexpr int group_m = 8` (`ir_emitter_triton.cc:451`). -/
def group_m : Nat := 8

/-- `constexpr int64_t kBlockCountYZLimit = 65536`
(`ir_emitter_triton.cc:541`). -/
def kBlockCountYZLimit : Nat := 65536

/-- `constexpr int64_t kComplexityHeuristicLimit = 9000`
(`ir_emitter_triton.cc:829`). -/
def kComplexityHeuristicLimit : Nat := 9000

/-- `INT_MAX` (signed 32-bit maximum), the 32- vs 64-bit indexing
boundary used in `MatMul` (`ir_emitter_triton.cc:790-793`). -/
def INT_MAX : Nat := 2147483647

/-- `ceil(1.0 * a / b)` on the integer ranges used by the emitter (the
`double` computation at `ir_emitter_triton.cc:509-510` is exact there). -/
def ceil_div (a b : Nat) : Nat := (a + b - 1) / b

/-- `grid_m` (`ir_emitter_triton.cc:509`). -/
def grid_m_of (info : DotInfo) (cfg : TritonGemmConfig) : Nat :=
  ceil_div info.m_minor cfg.block_m

/-- `grid_n` (`ir_emitter_triton.cc:510`). -/
def grid_n_of (info : DotInfo) (cfg : TritonGemmConfig) : Nat :=
  ceil_div info.n cfg.block_n

/-- Pre-emission shared-memory estimate (`ir_emitter_triton.cc:524-526`). -/
def required_shmem_size (info : DotInfo) (cfg : TritonGemmConfig) : Nat :=
  (cfg.block_m * bitWidth info.lhs_ty + cfg.block_n * bitWidth info.rhs_ty) *
    cfg.block_k * cfg.num_stages / 8

/-- Message of `ResourceExhausted("Requires too much shared memory: %d > %d",
required_shmem_size, shmem_budget)` (`ir_emitter_triton.cc:528-529`). -/
def requiresShmemMsg (required budget : Nat) : String :=
  "Requires too much shared memory: " ++ toString required ++ " > " ++
    toString budget

/-- Message of the post-compilation shared-memory failure
(`ir_emitter_triton.cc:938`). -/
def sharedMemLimitMsg : String := "Shared memory size limit exceeded."

/-- Message of the complexity-heuristic failure
(`ir_emitter_triton.cc:836-838`). -/
def complexityMsg (v : Nat) : String :=
  "Tiling complexity heuristic exceeded: " ++ toString v ++ " > " ++
    toString kComplexityHeuristicLimit

/-- Message of the fatal grid-size check (`ir_emitter_triton.cc:552-553`). -/
def gridCheckMsg : String :=
  "CHECK failed: batch_size * grid_m * grid_n < kBlockCountYZLimit * kBlockCountYZLimit"

/-- Batch-related quantities of `MatMulImpl`
(`ir_emitter_triton.cc:421-449`): either the major part of a split LHS
non-contracting dimension, or a true batch dimension, or neither. -/
structure BatchInfo where
  batch_size : Nat
  stride_batch_lhs : Int
  stride_batch_rhs : Int
  /-- full size of the LHS non-contracting dimension (`m_full`). -/
  m_full : Nat
deriving Repr, DecidableEq, Inhabited

/-- `ir_emitter_triton.cc:421-449`: populate `batch_size`,
`stride_batch_lhs`, `stride_batch_rhs` and `m_full`.  The batch
dimension must have the same length on both sides (`CHECK_EQ`, line
437-440). -/
def computeBatch (info : DotInfo) : Except EmitErr BatchInfo :=
  if info.lhs_nc_split then
    .ok { batch_size := info.lhs_nc_major_count
          stride_batch_lhs := info.lhs_nc_major_stride
          stride_batch_rhs := 0
          m_full := info.m_minor * info.lhs_nc_major_count }
  else if info.have_batch then
    if info.lhs_batch_count = info.rhs_batch_count then
      .ok { batch_size := info.lhs_batch_count
            stride_batch_lhs := info.lhs_batch_stride
            stride_batch_rhs := info.rhs_batch_stride
            m_full := info.m_minor }
    else .error (.checkFail "CHECK failed: batch dimension lengths equal")
  else
    .ok { batch_size := 1, stride_batch_lhs := 0, stride_batch_rhs := 0
          m_full := info.m_minor }

/-- Output strides populated by the minor-to-major walk
(`ir_emitter_triton.cc:453-456`), all initialised to 0. -/
structure OutStrides where
  stride_out_m : Int
  stride_out_n : Int
  stride_out_split_k : Int
  stride_out_batch : Int
deriving Repr, DecidableEq, Inhabited

/-- Parameters of the output-stride walk: the output dimension sizes, the
classified logical indices (`-1` when the axis is absent), and the sizes
each classified axis must equal. -/
structure WalkParams where
  out_dims : List Nat
  rhs_nc_out_idx : Int
  lhs_nc_out_idx : Int
  split_k_out_idx : Int
  batch_out_idx : Int
  n : Nat
  m_full : Nat
  split_k : Nat
  batch_size : Nat
  m_minor : Nat
  lhs_nc_split : Bool
deriving Repr, DecidableEq, Inhabited

/-- One iteration of the loop body of `ir_emitter_triton.cc:461-487`:
detect the type of one physical output dimension, populate the
corresponding stride with the running size accumulator (checking the
dimension's size against the expected one), and multiply the accumulator
by the dimension size; an unclassifiable dimension is the fatal
`CHECK(false) << "Unexpected dimension"`. -/
def walkStep (p : WalkParams) (logical_idx : Nat) (acc : Int)
    (s : OutStrides) : Except EmitErr (Int × OutStrides) :=
  let dim_size := p.out_dims.getD logical_idx 0
  if (logical_idx : Int) = p.rhs_nc_out_idx then
    if dim_size = p.n then
      .ok (acc * dim_size, { s with stride_out_n := acc })
    else .error (.checkFail "CHECK failed: dim_size == n")
  else if (logical_idx : Int) = p.lhs_nc_out_idx then
    if dim_size = p.m_full then
      .ok (acc * dim_size,
        { s with stride_out_m := acc
                 stride_out_batch :=
                   if p.lhs_nc_split then acc * p.m_minor
                   else s.stride_out_batch })
    else .error (.checkFail "CHECK failed: dim_size == m_full")
  else if (logical_idx : Int) = p.split_k_out_idx then
    if dim_size = p.split_k then
      .ok (acc * dim_size, { s with stride_out_split_k := acc })
    else .error (.checkFail "CHECK failed: dim_size == split_k")
  else if (logical_idx : Int) = p.batch_out_idx then
    if dim_size = p.batch_size then
      .ok (acc * dim_size, { s with stride_out_batch := acc })
    else .error (.checkFail "CHECK failed: dim_size == batch_size")
  else .error (.checkFail "Unexpected dimension")

/-- The loop of `ir_emitter_triton.cc:458-487`: iterate over the output's
physical dimensions starting from the fastest varying one, applying
`walkStep` to each; a failing step aborts the walk. -/
def outStrideWalk (p : WalkParams) :
    List Nat → Int → OutStrides → Except EmitErr (Int × OutStrides)
  | [], acc, s => .ok (acc, s)
  | logical_idx :: rest, acc, s =>
    match walkStep p logical_idx acc s with
    | .ok r => outStrideWalk p rest r.1 r.2
    | .error e => .error e

/-- The classified output indices of `ir_emitter_triton.cc:385-388`:
logical output dimensions are ordered split-K, batch, non-contracting
LHS, non-contracting RHS, the first two optional (index `-1`). -/
def mkWalkParams (info : DotInfo) (cfg : TritonGemmConfig)
    (batch_size m_full : Nat) : WalkParams :=
  let rank := info.out_dims.length
  let have_split_k := cfg.split_k > 1
  { out_dims := info.out_dims
    rhs_nc_out_idx := (rank : Int) - 1
    lhs_nc_out_idx := (rank : Int) - 2
    split_k_out_idx := if have_split_k then 0 else -1
    batch_out_idx :=
      if info.have_batch then (if have_split_k then 1 else 0) else -1
    n := info.n
    m_full := m_full
    split_k := cfg.split_k
    batch_size := batch_size
    m_minor := info.m_minor
    lhs_nc_split := info.lhs_nc_split }

/-- The output-stride computation with its post-checks
(`ir_emitter_triton.cc:458-496`): run the minor-to-major walk from
accumulator 1, then `CHECK_GE(stride_out_m, 1)`,
`CHECK_GE(stride_out_n, 1)`, and `CHECK_GT(..., 1)` for the split-K and
batch strides when those axes exist. -/
def computeOutStrides (info : DotInfo) (cfg : TritonGemmConfig)
    (batch_size m_full : Nat) : Except EmitErr OutStrides :=
  match outStrideWalk (mkWalkParams info cfg batch_size m_full)
      info.out_minor_to_major 1 ⟨0, 0, 0, 0⟩ with
  | .error e => .error e
  | .ok r =>
    let s := r.2
    if 1 ≤ s.stride_out_m then
      if 1 ≤ s.stride_out_n then
        if cfg.split_k > 1 → 1 < s.stride_out_split_k then
          if info.have_batch || info.lhs_nc_split then
            if 1 < s.stride_out_batch then .ok s
            else .error (.checkFail "CHECK failed: stride_out_batch > 1")
          else .ok s
        else .error (.checkFail "CHECK failed: stride_out_split_k > 1")
      else .error (.checkFail "CHECK failed: stride_out_n >= 1")
    else .error (.checkFail "CHECK failed: stride_out_m >= 1")

/-- Everything `MatMulImpl` derives before the resource checks. -/
structure AnalysisOut where
  batch : BatchInfo
  outs : OutStrides
deriving Repr, DecidableEq, Inhabited

/-- The analysis part of `MatMulImpl` preceding the shared-memory check,
in source order: the batch/split exclusivity check (line 407), batch
quantities (421-449), output strides and their post-checks (453-496),
and the tile-size checks `CHECK_GE(block_*, 16)` (502-504). -/
def analyzePre (info : DotInfo) (cfg : TritonGemmConfig) :
    Except EmitErr AnalysisOut :=
  if info.have_batch ∧ info.lhs_nc_split then
    .error (.checkFail "CHECK failed: have_batch + lhs_nc_split <= 1")
  else
    match computeBatch info with
    | .error e => .error e
    | .ok bat =>
      match computeOutStrides info cfg bat.batch_size bat.m_full with
      | .error e => .error e
      | .ok outs =>
        if 16 ≤ cfg.block_m then
          if 16 ≤ cfg.block_k then
            if 16 ≤ cfg.block_n then .ok { batch := bat, outs := outs }
            else .error (.checkFail "CHECK failed: block_n >= 16")
          else .error (.checkFail "CHECK failed: block_k >= 16")
        else .error (.checkFail "CHECK failed: block_m >= 16")

/-- Two's-complement wrapping to a 32-bit signed `int` (values in
[-2147483648, 2147483648)).  `batch_size`, `grid_m` and `grid_n` are
`int` in the source (`ir_emitter_triton.cc:422, 509-510`), so the
left-hand side of the grid-size check at line 552 is computed in 32-bit
signed arithmetic; on the targeted platforms signed overflow wraps.
Wrapping the exact product once equals wrapping after each of the two
multiplications, since multiplication is a congruence modulo 2^32. -/
def wrap32 (x : Int) : Int := (x + 2147483648) % 4294967296 - 2147483648

/-- All fallible steps of `MatMulImpl` in source order: the analysis,
then the shared-memory estimate check (`ir_emitter_triton.cc:527-530`,
a typed `ResourceExhausted`), then the grid-size check
`CHECK_LT(batch_size * grid_m * grid_n, kBlockCountYZLimit *
kBlockCountYZLimit)` (552-553).  The left-hand side of that `CHECK` is
a 32-bit `int` product, modelled by `wrap32`; since any `int`
sign-extended to `int64_t` is below `65536 * 65536`, the `checkFail`
branch — the fatal abort the `CHECK` would be — is unreachable
(`wrap32_lt_limit`). -/
def matMulChecks (info : DotInfo) (cfg : TritonGemmConfig)
    (shmem_budget : Nat) : Except EmitErr AnalysisOut :=
  match analyzePre info cfg with
  | .error e => .error e
  | .ok a =>
    if shmem_budget < required_shmem_size info cfg then
      .error (.resourceExhausted
        (requiresShmemMsg (required_shmem_size info cfg) shmem_budget))
    else if wrap32 ((a.batch.batch_size * grid_m_of info cfg *
        grid_n_of info cfg : Nat) : Int) <
        (kBlockCountYZLimit : Int) * kBlockCountYZLimit then
      .ok a
    else .error (.checkFail gridCheckMsg)

/-- Emitted MLIR values, as an expression tree.  Constructor names follow
the ops the emitter creates (`arith` dialect and Triton ops);
`nullv` stands for a C++ `nullptr` `mlir::Value` (absent mask/fill),
`param i` for `fn.getArgument(i)`, `outParam` for
`fn.getArguments().back()`, and `forResult i` for `ForOp.getResult(i)`. -/
inductive Expr where
  | nullv
  | cst (ty : PrimTy) (value : Int) (shape : List Nat)
  | programId (dim : Nat)
  | param (index : Nat)
  | outParam
  | forResult (index : Nat)
  | range (limit : Nat)
  | splat (e : Expr) (shape : List Nat)
  | bcast (e : Expr) (shape : List Nat)
  | expandDims (e : Expr) (axis : Nat)
  | addI (a b : Expr)
  | subI (a b : Expr)
  | mulI (a b : Expr)
  | divSI (a b : Expr)
  | remSI (a b : Expr)
  | andI (a b : Expr)
  | cmpSlt (a b : Expr)
  | select (c a b : Expr)
  | extSI (ty : PrimTy) (e : Expr)
  | addPtr (ptr offset : Expr)
  | load (ptr mask other : Expr)
  | dot (a b acc : Expr)
  | castTo (e : Expr) (ty : PrimTy)
deriving Repr, DecidableEq, Inhabited

/-- The values produced by one run of `body_builder`
(`ir_emitter_triton.cc:673-730`): the (possibly null) masks and
zero-fills, the two loads, their casts to `dot_ty`, the new accumulator
and the yielded loop state. -/
structure BodyResult where
  lhs_mask : Expr
  rhs_mask : Expr
  zeros_like_lhs : Expr
  zeros_like_rhs : Expr
  lhs_tile : Expr
  rhs_tile : Expr
  casted_lhs_tile : Expr
  casted_rhs_tile : Expr
  acc_next : Expr
  yields : List Expr
deriving Repr, DecidableEq, Inhabited

/-- The `scf::ForOp` of `ir_emitter_triton.cc:731-741`: constant 32-bit
bounds and step, the initial iteration arguments, and the body builder
as a function of the induction variable and the current iteration
arguments. -/
structure ForLoopE where
  lowerBound : Int
  upperBound : Int
  step : Int
  iterArgsInit : List Expr
  body : Expr → List Expr → BodyResult

/-- The emitted kernel program: the reduction loop plus the final output
addressing, store value and store mask (`ir_emitter_triton.cc:743-777`). -/
structure KernelProgram where
  loop : ForLoopE
  out_ptrs : Expr
  store_value : Expr
  store_mask : Expr

/-- What `MatMulImpl` hands back: the launch dimensions, together with
the emitted kernel program. -/
structure MatMulResult where
  launch : LaunchDimensions
  program : KernelProgram

/-- The emission part of `MatMulImpl` (`ir_emitter_triton.cc:513-778`),
run after all checks of `matMulChecks` have passed.  `idx64` is the
`IndexT = int64_t` template instantiation (`convert_scalar` /
`convert_range` insert `ExtSIOp`s exactly in that case).  The three
`GetProgramIdOp`s are created between the shared-memory check and the
fatal grid check in the source; since a failed `CHECK` aborts, emitting
them here (after all checks) is observationally equivalent. -/
def matMulBuild (idx64 : Bool) (info : DotInfo) (cfg : TritonGemmConfig)
    (a : AnalysisOut) : MatMulResult :=
  let i32_ty : PrimTy := .i32
  let int_ty : PrimTy := if idx64 then .i64 else .i32
  let m_minor := info.m_minor
  let n := info.n
  let k := info.lhs_contracting_size * cfg.split_k
  let block_m := cfg.block_m
  let block_k := cfg.block_k
  let block_n := cfg.block_n
  let grid_m := grid_m_of info cfg
  let grid_n := grid_n_of info cfg
  let width := group_m * grid_n
  let dotTy := dot_ty info.lhs_ty info.rhs_ty
  let accTy := acc_ty info.root_ty dotTy
  let batch_size := a.batch.batch_size
  let large_batch := kBlockCountYZLimit ≤ batch_size
  let launch : LaunchDimensions :=
    { grid := ⟨if large_batch then batch_size else grid_m * grid_n,
               if large_batch then grid_m * grid_n else batch_size,
               cfg.split_k⟩
      block := ⟨cfg.num_warps * WarpSize, 1, 1⟩ }
  let pid_batch := Expr.programId (if large_batch then 0 else 1)
  let pid_nc := Expr.programId (if large_batch then 1 else 0)
  let pid_k := Expr.programId 2
  let group_id := Expr.divSI pid_nc (.cst i32_ty width [])
  let group_m_op := Expr.cst i32_ty group_m []
  let first_pid_m := Expr.mulI group_id group_m_op
  let sub0 := Expr.subI (.cst i32_ty grid_m []) first_pid_m
  let group_size := Expr.select (.cmpSlt sub0 group_m_op) sub0 group_m_op
  let convert_scalar := fun (e : Expr) => if idx64 then Expr.extSI int_ty e else e
  let convert_range := fun (e : Expr) => if idx64 then Expr.extSI int_ty e else e
  let pid_m := Expr.addI first_pid_m (.remSI pid_nc group_size)
  let pid_m_stride := Expr.mulI pid_m (.cst i32_ty block_m [])
  let range_m := Expr.addI (.splat pid_m_stride [block_m]) (.range block_m)
  let pid_n := Expr.divSI (.remSI pid_nc (.cst i32_ty width [])) group_size
  let pid_n_stride := Expr.mulI pid_n (.cst i32_ty block_n [])
  let range_n := Expr.addI (.splat pid_n_stride [block_n]) (.range block_n)
  let range_k := Expr.addI
    (.splat (.mulI pid_k (.cst i32_ty block_k [])) [block_k]) (.range block_k)
  let shape_m_1 : List Nat := [block_m, 1]
  let range_lhs_m := convert_range
    (.remSI range_m (.cst i32_ty m_minor [block_m]))
  let lhs_offset_m := Expr.mulI (.expandDims range_lhs_m 1)
    (.cst int_ty info.stride_lhs_m shape_m_1)
  let shape_1_k : List Nat := [1, block_k]
  let lhs_offset_k := Expr.mulI (.expandDims (convert_range range_k) 0)
    (.cst int_ty info.stride_lhs_k shape_1_k)
  let shape_m_k : List Nat := [block_m, block_k]
  let lhs_offset := Expr.addI (.bcast lhs_offset_m shape_m_k)
    (.bcast lhs_offset_k shape_m_k)
  let lhs_offset_batch := Expr.mulI (convert_scalar pid_batch)
    (.cst int_ty a.batch.stride_batch_lhs [])
  let lhs := Expr.param info.lhs_param_number
  let lhs_ptrs_base := Expr.addPtr
    (.splat (.addPtr lhs lhs_offset_batch) shape_m_k) lhs_offset
  let shape_k_1 : List Nat := [block_k, 1]
  let rhs_off_k := Expr.mulI (.expandDims (convert_range range_k) 1)
    (.cst int_ty info.stride_rhs_k shape_k_1)
  let shape_1_n : List Nat := [1, block_n]
  let range_rhs_n := convert_range (.remSI range_n (.cst i32_ty n [block_n]))
  let rhs_offset_n := Expr.mulI (.expandDims range_rhs_n 0)
    (.cst int_ty info.stride_rhs_n shape_1_n)
  let shape_k_n : List Nat := [block_k, block_n]
  let rhs_offset := Expr.addI (.bcast rhs_off_k shape_k_n)
    (.bcast rhs_offset_n shape_k_n)
  let rhs_offset_batch := Expr.mulI (convert_scalar pid_batch)
    (.cst int_ty a.batch.stride_batch_rhs [])
  let rhs := Expr.param info.rhs_param_number
  let rhs_ptrs_base := Expr.addPtr
    (.splat (.addPtr rhs rhs_offset_batch) shape_k_n) rhs_offset
  let shape_m_n : List Nat := [block_m, block_n]
  let acc_init := Expr.cst accTy 0 shape_m_n
  let body_builder : Expr → List Expr → BodyResult := fun ki iterArgs =>
    let lhs_ptrs := iterArgs.getD 0 .nullv
    let rhs_ptrs := iterArgs.getD 1 .nullv
    let acc := iterArgs.getD 2 .nullv
    let masked := k % (block_k * cfg.split_k) > 0
    let zeros_like_lhs :=
      if masked then Expr.cst info.lhs_ty 0 shape_m_k else .nullv
    let zeros_like_rhs :=
      if masked then Expr.cst info.rhs_ty 0 shape_k_n else .nullv
    let elements_in_tile := Expr.subI (.cst i32_ty k []) ki
    let lhs_mask :=
      if masked then
        Expr.bcast (.cmpSlt (.expandDims range_k 0)
          (.splat elements_in_tile shape_1_k)) shape_m_k
      else .nullv
    let rhs_mask :=
      if masked then
        Expr.bcast (.cmpSlt (.expandDims range_k 1)
          (.splat elements_in_tile shape_k_1)) shape_k_n
      else .nullv
    let lhs_tile := Expr.load lhs_ptrs lhs_mask zeros_like_lhs
    let rhs_tile := Expr.load rhs_ptrs rhs_mask zeros_like_rhs
    let casted_lhs_tile := Expr.castTo lhs_tile dotTy
    let casted_rhs_tile := Expr.castTo rhs_tile dotTy
    let acc_next := Expr.dot casted_lhs_tile casted_rhs_tile acc
    let lhs_ptrs_inc := Expr.addPtr lhs_ptrs
      (.cst int_ty (block_k * cfg.split_k * info.stride_lhs_k) shape_m_k)
    let rhs_ptrs_inc := Expr.addPtr rhs_ptrs
      (.cst int_ty (block_k * cfg.split_k * info.stride_rhs_k) shape_k_n)
    { lhs_mask := lhs_mask, rhs_mask := rhs_mask
      zeros_like_lhs := zeros_like_lhs, zeros_like_rhs := zeros_like_rhs
      lhs_tile := lhs_tile, rhs_tile := rhs_tile
      casted_lhs_tile := casted_lhs_tile, casted_rhs_tile := casted_rhs_tile
      acc_next := acc_next
      yields := [lhs_ptrs_inc, rhs_ptrs_inc, acc_next] }
  let loop : ForLoopE :=
    { lowerBound := 0
      upperBound := (k : Int)
      step := ((block_k * cfg.split_k : Nat) : Int)
      iterArgsInit := [lhs_ptrs_base, rhs_ptrs_base, acc_init]
      body := body_builder }
  let acc_final := Expr.forResult 2
  let out := Expr.outParam
  let out_offset_batch := Expr.mulI (convert_scalar pid_batch)
    (.cst int_ty a.outs.stride_out_batch [])
  let out_offset_split_k := Expr.mulI (convert_scalar pid_k)
    (.cst int_ty a.outs.stride_out_split_k [])
  let out_offset_m := Expr.mulI (.expandDims (convert_range range_m) 1)
    (.cst int_ty a.outs.stride_out_m shape_m_1)
  let out_ptrs_m := Expr.addPtr
    (.splat (.addPtr (.addPtr out out_offset_batch) out_offset_split_k)
      shape_m_1) out_offset_m
  let out_offset_n := Expr.mulI (.expandDims (convert_range range_n) 0)
    (.cst int_ty a.outs.stride_out_n shape_1_n)
  let out_ptrs := Expr.addPtr (.bcast out_ptrs_m shape_m_n)
    (.bcast out_offset_n shape_m_n)
  let rm_cmp := Expr.cmpSlt (.expandDims range_m 1)
    (.cst i32_ty m_minor shape_m_1)
  let rn_cmp := Expr.cmpSlt (.expandDims range_n 0)
    (.cst i32_ty n shape_1_n)
  let mask := Expr.andI (.bcast rm_cmp shape_m_n) (.bcast rn_cmp shape_m_n)
  { launch := launch
    program :=
      { loop := loop
        out_ptrs := out_ptrs
        store_value := Expr.castTo acc_final info.root_ty
        store_mask := mask } }

/-- `MatMulImpl` (`ir_emitter_triton.cc:322-779`): run all fallible
checks in source order, then emit the kernel program and return it with
the launch dimensions.  An error leaves no program behind. -/
def matMulImpl (idx64 : Bool) (info : DotInfo) (cfg : TritonGemmConfig)
    (shmem_budget : Nat) : Except EmitErr MatMulResult :=
  (matMulChecks info cfg shmem_budget).map (matMulBuild idx64 info cfg)

/-- The 32- vs 64-bit indexing choice of `MatMul`
(`ir_emitter_triton.cc:790-793`). -/
def use_64bit_indexing (info : DotInfo) (cfg : TritonGemmConfig) : Bool :=
  info.lhs_elements > INT_MAX || info.rhs_elements > INT_MAX ||
    info.out_elements * cfg.split_k > INT_MAX

/-- `MatMul` (`ir_emitter_triton.cc:783-799`): select the index width
and dispatch to the corresponding `MatMulImpl` instantiation. -/
def MatMul (info : DotInfo) (cfg : TritonGemmConfig) (shmem_budget : Nat) :
    Except EmitErr MatMulResult :=
  if use_64bit_indexing info cfg then matMulImpl true info cfg shmem_budget
  else matMulImpl false info cfg shmem_budget

/-- The complexity heuristic of `TritonWrapper`
(`ir_emitter_triton.cc:830-833`). -/
def complexity_heuristic_value (cfg : TritonGemmConfig) : Nat :=
  (cfg.block_m * cfg.block_n + (cfg.block_m + cfg.block_n) * cfg.block_k) /
    cfg.num_warps

/-- `TritonWrapper` (`ir_emitter_triton.cc:801-954`), with the external
collaborators abstracted: `generator` is the `LaunchDimensionsGenerator`
(in practice `MatMul`), and `measured_shared_mem_bytes` is the
`triton_gpu.shared` attribute the external Triton pipeline attaches to
the compiled module.  Order as in the source: the complexity-heuristic
check precedes any kernel emission; the measured shared-memory footprint
is checked after compilation against the same
`shared_memory_per_block_optin` budget that `MatMulImpl` received. -/
def tritonWrapper
    (generator : TritonGemmConfig → Nat → Except EmitErr MatMulResult)
    (cfg : TritonGemmConfig) (shared_memory_per_block_optin : Nat)
    (measured_shared_mem_bytes : Nat) : Except EmitErr LaunchDimensions :=
  if complexity_heuristic_value cfg > kComplexityHeuristicLimit then
    .error (.resourceExhausted (complexityMsg (complexity_heuristic_value cfg)))
  else
    match generator cfg shared_memory_per_block_optin with
    | .error e => .error e
    | .ok r =>
      if measured_shared_mem_bytes > shared_memory_per_block_optin then
        .error (.resourceExhausted sharedMemLimitMsg)
      else
        .ok { r.launch with sharedMemBytes := measured_shared_mem_bytes }

/-- `width = group_m * grid_n` (`ir_emitter_triton.cc:511`), as the
integer value of the emitted constant. -/
def width (grid_n : Nat) : Int := (group_m : Int) * grid_n

/-- Integer semantics of the emitted `group_id = pid_nc /s width`
(`ir_emitter_triton.cc:560`); `DivSIOp` truncates toward zero. -/
def group_id (grid_n : Nat) (pid_nc : Int) : Int :=
  Int.tdiv pid_nc (width grid_n)

/-- `first_pid_m = group_id * group_m` (`ir_emitter_triton.cc:562`). -/
def first_pid_m (grid_n : Nat) (pid_nc : Int) : Int :=
  group_id grid_n pid_nc * (group_m : Int)

/-- `group_size = select(grid_m - first_pid_m <s group_m, grid_m -
first_pid_m, group_m)` (`ir_emitter_triton.cc:563-566`). -/
def group_size (grid_m grid_n : Nat) (pid_nc : Int) : Int :=
  let sub0 := (grid_m : Int) - first_pid_m grid_n pid_nc
  if sub0 < (group_m : Int) then sub0 else (group_m : Int)

/-- `pid_m = first_pid_m + pid_nc %s group_size`
(`ir_emitter_triton.cc:608-609`); `RemSIOp` takes the dividend's sign. -/
def pid_m (grid_m grid_n : Nat) (pid_nc : Int) : Int :=
  first_pid_m grid_n pid_nc + Int.tmod pid_nc (group_size grid_m grid_n pid_nc)

/-- `pid_n = (pid_nc %s width) /s group_size`
(`ir_emitter_triton.cc:617-618`). -/
def pid_n (grid_m grid_n : Nat) (pid_nc : Int) : Int :=
  Int.tdiv (Int.tmod pid_nc (width grid_n)) (group_size grid_m grid_n pid_nc)

/-- The product of the output dimension sizes over a segment of the
layout walk: the stride contributed by those (more minor) dimensions. -/
def sizeProd (p : WalkParams) (l : List Nat) : Int :=
  (l.map fun i => ((p.out_dims.getD i 0 : Nat) : Int)).prod

/-- A small regular f32 GEMM used as a concrete instance: lhs 80×40
(row-major), rhs 40×48, output 80×48 with row-major layout; no batch
dimension and no split LHS non-contracting dimension. -/
def cInfo : DotInfo :=
  { lhs_ty := .f32, rhs_ty := .f32, root_ty := .f32
    lhs_contracting_size := 40
    m_minor := 80, n := 48
    lhs_nc_split := false, have_batch := false
    lhs_nc_major_count := 0, lhs_nc_major_stride := 0
    lhs_batch_count := 0, rhs_batch_count := 0
    lhs_batch_stride := 0, rhs_batch_stride := 0
    stride_lhs_m := 40, stride_lhs_k := 1
    stride_rhs_k := 48, stride_rhs_n := 1
    out_dims := [80, 48]
    out_minor_to_major := [1, 0]
    lhs_elements := 3200, rhs_elements := 1920, out_elements := 3840
    lhs_param_number := 0, rhs_param_number := 1 }

/-- A minimal legal tiling configuration (all blocks 16). -/
def cCfg : TritonGemmConfig :=
  { block_m := 16, block_n := 16, block_k := 16
    split_k := 1, num_warps := 4, num_stages := 1 }

/-- The analysis output of `cInfo`/`cCfg`: no batch, and output strides
48/1 from the row-major 80×48 output. -/
def cAnalysis : AnalysisOut :=
  { batch := { batch_size := 1, stride_batch_lhs := 0
               stride_batch_rhs := 0, m_full := 80 }
    outs := { stride_out_m := 48, stride_out_n := 1
              stride_out_split_k := 0, stride_out_batch := 0 } }

/-- The kernel emitted for `cInfo`/`cCfg` with 32-bit indexing. -/
def cResult : MatMulResult := matMulBuild false cInfo cCfg cAnalysis

/-- `cInfo` with a batch dimension of size 60000: output 60000×80×48,
batch-major layout. -/
def cInfoBatch60000 : DotInfo :=
  { cInfo with
    have_batch := true
    lhs_batch_count := 60000, rhs_batch_count := 60000
    lhs_batch_stride := 3200, rhs_batch_stride := 1920
    out_dims := [60000, 80, 48]
    out_minor_to_major := [2, 1, 0]
    lhs_elements := 192000000, rhs_elements := 115200000
    out_elements := 230400000 }

/-- Analysis output of `cInfoBatch60000`/`cCfg`. -/
def cAnalysisBatch60000 : AnalysisOut :=
  { batch := { batch_size := 60000, stride_batch_lhs := 3200
               stride_batch_rhs := 1920, m_full := 80 }
    outs := { stride_out_m := 48, stride_out_n := 1
              stride_out_split_k := 0, stride_out_batch := 3840 } }

/-- The kernel emitted for `cInfoBatch60000`/`cCfg`. -/
def cResultBatch60000 : MatMulResult :=
  matMulBuild false cInfoBatch60000 cCfg cAnalysisBatch60000

/-- `cInfo` with a batch dimension of size 70000 (the spec's geometry
example: grid_m = 5, grid_n = 3, batch_size = 70000). -/
def cInfoBatch70000 : DotInfo :=
  { cInfoBatch60000 with
    lhs_batch_count := 70000, rhs_batch_count := 70000
    out_dims := [70000, 80, 48]
    lhs_elements := 224000000, rhs_elements := 134400000
    out_elements := 268800000 }

/-- Analysis output of `cInfoBatch70000`/`cCfg`. -/
def cAnalysisBatch70000 : AnalysisOut :=
  { cAnalysisBatch60000 with
    batch := { batch_size := 70000, stride_batch_lhs := 3200
               stride_batch_rhs := 1920, m_full := 80 } }

/-- The kernel emitted for `cInfoBatch70000`/`cCfg`. -/
def cResultBatch70000 : MatMulResult :=
  matMulBuild false cInfoBatch70000 cCfg cAnalysisBatch70000

/-- An input on which `batch_size * grid_m * grid_n` reaches exactly
`65536 * 65536`: batch 65536, lhs 1048576×40, rhs 40×16, blocks 16, so
grid_m = 65536 and grid_n = 1. -/
def cInfoGridOverflow : DotInfo :=
  { cInfo with
    have_batch := true
    lhs_batch_count := 65536, rhs_batch_count := 65536
    lhs_batch_stride := 41943040, rhs_batch_stride := 640
    m_minor := 1048576, n := 16
    stride_lhs_m := 40, stride_lhs_k := 1
    stride_rhs_k := 16, stride_rhs_n := 1
    out_dims := [65536, 1048576, 16]
    out_minor_to_major := [2, 1, 0]
    lhs_elements := 2748779069440, rhs_elements := 41943040
    out_elements := 1099511627776 }

/-- A tiling configuration whose shared-memory estimate (524288 bytes
for f32 operands) exceeds the usual 98304-byte budget. -/
def cCfgShmemHeavy : TritonGemmConfig :=
  { block_m := 128, block_n := 128, block_k := 128
    split_k := 1, num_warps := 4, num_stages := 4 }

/-- The configuration of the spec's rejection example:
block_m = 256, block_n = 256, block_k = 64, num_warps = 4. -/
def cCfgComplexityHeavy : TritonGemmConfig :=
  { block_m := 256, block_n := 256, block_k := 64
    split_k := 1, num_warps := 4, num_stages := 1 }

/-- A generator standing in for `MatMul` in `tritonWrapper` instances:
it ignores its arguments and emits the `cInfo` kernel. -/
def cGenerator : TritonGemmConfig → Nat → Except EmitErr MatMulResult :=
  fun _ _ => matMulImpl false cInfo cCfg 98304

/-- Analysis output of `cInfoGridOverflow`/`cCfg`. -/
def cAnalysisGridOverflow : AnalysisOut :=
  { batch := { batch_size := 65536, stride_batch_lhs := 41943040
               stride_batch_rhs := 640, m_full := 1048576 }
    outs := { stride_out_m := 16, stride_out_n := 1
              stride_out_split_k := 0, stride_out_batch := 16777216 } }

/-- The kernel emitted for `cInfoGridOverflow`/`cCfg`: the lowering
succeeds there, the grid check being ineffective. -/
def cResultGridOverflow : MatMulResult :=
  matMulBuild false cInfoGridOverflow cCfg cAnalysisGridOverflow

/-! ### Helper lemmas -/

theorem matMulImpl_ok_elim (idx64 : Bool) (info : DotInfo)
    (cfg : TritonGemmConfig) (budget : Nat) (r : MatMulResult)
    (h : matMulImpl idx64 info cfg budget = .ok r) :
    ∃ a, matMulChecks info cfg budget = .ok a ∧
      r = matMulBuild idx64 info cfg a := by
  unfold matMulImpl at h
  cases hc : matMulChecks info cfg budget with
  | ok a =>
    refine ⟨a, rfl, ?_⟩
    rw [hc] at h
    simpa [Except.map] using h.symm
  | error e =>
    rw [hc] at h
    simp [Except.map] at h

theorem matMulImpl_error (idx64 : Bool) (info : DotInfo)
    (cfg : TritonGemmConfig) (budget : Nat) (e : EmitErr)
    (h : matMulChecks info cfg budget = .error e) :
    matMulImpl idx64 info cfg budget = .error e := by
  unfold matMulImpl
  rw [h]
  rfl

theorem wrap32_lt_limit (x : Int) :
    wrap32 x < (kBlockCountYZLimit : Int) * kBlockCountYZLimit := by
  have h2 : (x + 2147483648) % 4294967296 < 4294967296 :=
    Int.emod_lt_of_pos _ (by norm_num)
  have hlim : ((kBlockCountYZLimit : Nat) : Int) * kBlockCountYZLimit =
      4294967296 := by norm_num [kBlockCountYZLimit]
  unfold wrap32
  rw [hlim]
  linarith

theorem matMulChecks_ok_of (info : DotInfo) (cfg : TritonGemmConfig)
    (budget : Nat) (a : AnalysisOut)
    (ha : analyzePre info cfg = .ok a)
    (h1 : ¬budget < required_shmem_size info cfg) :
    matMulChecks info cfg budget = .ok a := by
  unfold matMulChecks
  rw [ha]
  dsimp only
  rw [if_neg h1, if_pos (wrap32_lt_limit _)]

theorem matMulChecks_shmem_error (info : DotInfo) (cfg : TritonGemmConfig)
    (budget : Nat) (a : AnalysisOut)
    (ha : analyzePre info cfg = .ok a)
    (h1 : budget < required_shmem_size info cfg) :
    matMulChecks info cfg budget =
      .error (.resourceExhausted
        (requiresShmemMsg (required_shmem_size info cfg) budget)) := by
  unfold matMulChecks
  rw [ha]
  dsimp only
  rw [if_pos h1]

/-! ### C2 -/

/-- C2: evaluating the accumulation-type policy at f64 operands with an
f64 output.  The `dot_ty` selection chain of `ir_emitter_triton.cc:515-522`
never produces `f64`, so the f64 accumulator condition
`root_ty.isF64() && dot_ty.isF64()` of line 534-535 is unsatisfiable and
the accumulator is `f32` even for f64 × f64 → f64 — contradicting both
the claim and the code's own comment ("Otherwise only f64 x f64 -> f64
uses f64 accumulator").  The last conjunct shows the accumulation type is
`f32` for every operand/output combination. -/
theorem c2_f64_accumulator_never_used :
    dot_ty .f64 .f64 = .f32 ∧
    acc_ty .f64 (dot_ty .f64 .f64) = .f32 ∧
    acc_ty .f64 (dot_ty .f64 .f64) ≠ .f64 ∧
    ∀ root lhs rhs : PrimTy, acc_ty root (dot_ty lhs rhs) = .f32 := by
  refine ⟨rfl, rfl, by decide, ?_⟩
  intro root lhs rhs
  cases root <;> cases lhs <;> cases rhs <;> rfl

/-! ### C5 -/

/-- C5: 32-bit (narrow) indexing is selected iff the lhs element count,
the rhs element count, and the output element count scaled by `split_k`
are all at most `INT_MAX`; `MatMul` dispatches on exactly this flag, so
a single wide operand forces 64-bit indexing for the whole call.  The
concrete conjuncts check the spec's 3·10⁹ / 10⁶ / mixed examples. -/
theorem c5_index_width_selection (info : DotInfo) (cfg : TritonGemmConfig)
    (budget : Nat) :
    (use_64bit_indexing info cfg = false ↔
      info.lhs_elements ≤ INT_MAX ∧ info.rhs_elements ≤ INT_MAX ∧
        info.out_elements * cfg.split_k ≤ INT_MAX) ∧
    MatMul info cfg budget =
      (if use_64bit_indexing info cfg then matMulImpl true info cfg budget
       else matMulImpl false info cfg budget) ∧
    use_64bit_indexing { cInfo with lhs_elements := 3000000000 } cCfg = true ∧
    use_64bit_indexing
      { cInfo with lhs_elements := 1000000, rhs_elements := 1000000
                   out_elements := 1000000 } cCfg = false ∧
    use_64bit_indexing
      { cInfo with lhs_elements := 3000000000, rhs_elements := 1000000 }
      cCfg = true := by
  refine ⟨?_, rfl, by decide, by decide, by decide⟩
  simp only [use_64bit_indexing, Bool.or_eq_false_iff,
    decide_eq_false_iff_not, Nat.not_lt, gt_iff_lt]
  omega

/-- C5 witness: the small GEMM `cInfo` (all counts ≤ INT_MAX) selects
narrow indexing. -/
theorem c5_index_width_selection_witness :
    use_64bit_indexing cInfo cCfg = false :=
  (c5_index_width_selection cInfo cCfg 0).1.mpr (by decide)

/-! ### C7 -/

/-- C7 counterexample: the complexity heuristic at
block_m = 256, block_n = 256, block_k = 64, num_warps = 4 evaluates to
(256·256 + (256+256)·64)/4 = 24576, not 24832 as the claim states. -/
theorem c7_heuristic_value_counterexample :
    complexity_heuristic_value cCfgComplexityHeavy = 24576 ∧
    complexity_heuristic_value cCfgComplexityHeavy ≠ 24832 := by
  exact ⟨by decide, by decide⟩

/-- C7 (amended): for every configuration whose complexity heuristic
exceeds the fixed 9000 ceiling, `TritonWrapper` returns a typed
ResourceExhausted naming the heuristic value — for every generator, so
before any kernel program is emitted; the spec's example configuration
has heuristic value 24576 > 9000 and is rejected. -/
theorem c7_complexity_rejection
    (gen : TritonGemmConfig → Nat → Except EmitErr MatMulResult)
    (cfg : TritonGemmConfig) (budget measured : Nat)
    (h : complexity_heuristic_value cfg > kComplexityHeuristicLimit) :
    tritonWrapper gen cfg budget measured =
      .error (.resourceExhausted
        (complexityMsg (complexity_heuristic_value cfg))) ∧
    complexity_heuristic_value cCfgComplexityHeavy = 24576 ∧
    complexity_heuristic_value cCfgComplexityHeavy >
      kComplexityHeuristicLimit := by
  refine ⟨?_, by decide, by decide⟩
  unfold tritonWrapper
  rw [if_pos h]

/-- C7 witness: the rejection at the spec's example configuration, with
an arbitrary generator in place of `MatMul`. -/
theorem c7_complexity_rejection_witness :
    complexity_heuristic_value cCfgComplexityHeavy >
      kComplexityHeuristicLimit ∧
    tritonWrapper cGenerator cCfgComplexityHeavy 98304 0 =
      .error (.resourceExhausted (complexityMsg 24576)) := by
  refine ⟨by decide, ?_⟩
  exact (c7_complexity_rejection cGenerator cCfgComplexityHeavy 98304 0
    (by decide)).1

/-! ### C10 -/

/-- C10: every successful lowering launches thread blocks of exactly
(num_warps × warp size, 1, 1) — the block shape depends only on
`num_warps` and the fixed warp size, not on shapes, batch size, split_k
or the tile parameters. -/
theorem c10_block_dimensions (idx64 : Bool) (info : DotInfo)
    (cfg : TritonGemmConfig) (budget : Nat) (r : MatMulResult)
    (h : matMulImpl idx64 info cfg budget = .ok r) :
    r.launch.block = ⟨cfg.num_warps * WarpSize, 1, 1⟩ := by
  obtain ⟨a, -, rfl⟩ := matMulImpl_ok_elim idx64 info cfg budget r h
  rfl

/-- C10 witness: the concrete small GEMM launches (4·32, 1, 1) blocks. -/
theorem c10_block_dimensions_witness :
    matMulImpl false cInfo cCfg 98304 = .ok cResult ∧
    cResult.launch.block = ⟨cCfg.num_warps * WarpSize, 1, 1⟩ := by
  have h : matMulImpl false cInfo cCfg 98304 = .ok cResult := rfl
  exact ⟨h, c10_block_dimensions false cInfo cCfg 98304 cResult h⟩

/-! ### C4 -/

/-- C4 counterexample: with batch_size = 60000 and grid_m·grid_n = 15
(grid_m = 5, grid_n = 3), the larger quantity 60000 is placed on the
ceiling-bound y axis and the smaller 15 on the unbound x axis — the
emitter tests `batch_size >= 65536`, not which quantity is larger, so
the claimed larger-on-unbound placement fails at this input. -/
theorem c4_grid_axis_counterexample :
    matMulImpl false cInfoBatch60000 cCfg 98304 = .ok cResultBatch60000 ∧
    cResultBatch60000.launch.grid = ⟨15, 60000, 1⟩ ∧
    ¬(60000 ≤ cResultBatch60000.launch.grid.x) := by
  refine ⟨rfl, rfl, by decide⟩

/-- C4 (amended): the launch grid places `batch_size` on the unbound x
axis iff `batch_size ≥ 65536`, otherwise `grid_m·grid_n` occupies x and
`batch_size` the ceiling-bound y axis; `split_k` is always on z; and in
the spec's example (grid_m = 5, grid_n = 3, batch_size = 70000) the
fused tile count 15 lands on the bound axis and 70000 on the unbound
axis. -/
theorem c4_grid_axis_assignment :
    (∀ (idx64 : Bool) (info : DotInfo) (cfg : TritonGemmConfig)
        (budget : Nat) (a : AnalysisOut),
      matMulChecks info cfg budget = .ok a →
      (matMulBuild idx64 info cfg a).launch.grid =
        ⟨if kBlockCountYZLimit ≤ a.batch.batch_size then a.batch.batch_size
          else grid_m_of info cfg * grid_n_of info cfg,
         if kBlockCountYZLimit ≤ a.batch.batch_size
          then grid_m_of info cfg * grid_n_of info cfg
          else a.batch.batch_size,
         cfg.split_k⟩) ∧
    matMulImpl false cInfoBatch70000 cCfg 98304 = .ok cResultBatch70000 ∧
    cResultBatch70000.launch.grid = ⟨70000, 15, 1⟩ := by
  exact ⟨fun idx64 info cfg budget a _ => rfl, rfl, rfl⟩

/-- C4 witness: the 70000-batch example instantiating the amended
placement rule. -/
theorem c4_grid_axis_assignment_witness :
    matMulChecks cInfoBatch70000 cCfg 98304 = .ok cAnalysisBatch70000 ∧
    (matMulBuild false cInfoBatch70000 cCfg cAnalysisBatch70000).launch.grid
      = ⟨70000, 15, 1⟩ := by
  have h : matMulChecks cInfoBatch70000 cCfg 98304 =
      .ok cAnalysisBatch70000 := rfl
  have h2 := c4_grid_axis_assignment.1 false cInfoBatch70000 cCfg 98304
    cAnalysisBatch70000 h
  refine ⟨h, ?_⟩
  rw [h2]
  rfl

/-! ### C3 -/

/-- C3 counterexample: at an input whose true `batch_size·grid_m·grid_n`
reaches 65536² (batch 65536, grid_m 65536, grid_n 1) and whose other
checks pass, the lowering neither returns a typed ResourceExhausted nor
aborts, and a kernel program IS returned: the `CHECK_LT` at line 552
compares the 32-bit `int` product — here wrapped to 0 — against 65536²,
so it passes. -/
theorem c3_grid_ceiling_counterexample :
    kBlockCountYZLimit * kBlockCountYZLimit ≤
      cAnalysisGridOverflow.batch.batch_size *
        grid_m_of cInfoGridOverflow cCfg *
        grid_n_of cInfoGridOverflow cCfg ∧
    matMulImpl false cInfoGridOverflow cCfg 98304 =
      .ok cResultGridOverflow ∧
    isResourceExhausted (matMulImpl false cInfoGridOverflow cCfg 98304) =
      false := by
  refine ⟨by decide, rfl, rfl⟩

/-- C3 (amended): the combined grid ceiling is not enforced at all.  The
`CHECK_LT` at line 552 computes `batch_size * grid_m * grid_n` in
32-bit `int` arithmetic, and any `int` sign-extended to `int64_t` is
below 65536², so the check can never fire — whence for every input whose
preceding checks pass (in particular whenever the true product reaches
or exceeds 65536²) the lowering fails with neither a typed
ResourceExhausted nor an unrecoverable abort, and a kernel program is
emitted and returned. -/
theorem c3_grid_ceiling_check_vacuous :
    (∀ x : Int,
      wrap32 x < (kBlockCountYZLimit : Int) * kBlockCountYZLimit) ∧
    (∀ (idx64 : Bool) (info : DotInfo) (cfg : TritonGemmConfig)
        (budget : Nat) (a : AnalysisOut),
      analyzePre info cfg = .ok a →
      required_shmem_size info cfg ≤ budget →
      matMulImpl idx64 info cfg budget =
        .ok (matMulBuild idx64 info cfg a) ∧
      isResourceExhausted (matMulImpl idx64 info cfg budget) = false) := by
  refine ⟨wrap32_lt_limit, ?_⟩
  intro idx64 info cfg budget a ha h1
  have hc := matMulChecks_ok_of info cfg budget a ha (Nat.not_lt.mpr h1)
  constructor
  · unfold matMulImpl
    rw [hc]
    rfl
  · unfold matMulImpl
    rw [hc]
    rfl

/-- C3 witness: the vacuous-check theorem instantiated at the concrete
overflow input, whose wrapped product is 0. -/
theorem c3_grid_ceiling_check_vacuous_witness :
    wrap32 ((65536 : Int) * 65536) <
      (kBlockCountYZLimit : Int) * kBlockCountYZLimit ∧
    analyzePre cInfoGridOverflow cCfg = .ok cAnalysisGridOverflow ∧
    required_shmem_size cInfoGridOverflow cCfg ≤ 98304 ∧
    matMulImpl false cInfoGridOverflow cCfg 98304 =
      .ok cResultGridOverflow := by
  have ha : analyzePre cInfoGridOverflow cCfg = .ok cAnalysisGridOverflow :=
    rfl
  refine ⟨c3_grid_ceiling_check_vacuous.1 _, ha, by decide, ?_⟩
  exact (c3_grid_ceiling_check_vacuous.2 false cInfoGridOverflow cCfg 98304
    cAnalysisGridOverflow ha (by decide)).1

/-! ### C6 -/

/-- C6: the shared-memory budget is enforced twice.  Pre-emission, if
the estimate `(block_m·bits(lhs)+block_n·bits(rhs))·block_k·num_stages/8`
exceeds the budget (and the preceding analysis checks pass), the
lowering returns a typed ResourceExhausted whose message carries the
metric name and both numeric values, and no kernel program is returned
— the failure depends only on the configuration and element types, and
in the source (line 527) it precedes the first emitted operation (line
543).  Post-emission, a measured footprint above the same budget also
yields a typed ResourceExhausted with the fixed message naming the
shared-memory size limit. -/
theorem c6_shared_memory_checks :
    (∀ (idx64 : Bool) (info : DotInfo) (cfg : TritonGemmConfig)
        (budget : Nat) (a : AnalysisOut),
      analyzePre info cfg = .ok a →
      budget < required_shmem_size info cfg →
      matMulImpl idx64 info cfg budget =
        .error (.resourceExhausted
          (requiresShmemMsg (required_shmem_size info cfg) budget)) ∧
      (toString (required_shmem_size info cfg)).data <:+:
        (requiresShmemMsg (required_shmem_size info cfg) budget).data ∧
      (toString budget).data <:+:
        (requiresShmemMsg (required_shmem_size info cfg) budget).data) ∧
    (∀ (gen : TritonGemmConfig → Nat → Except EmitErr MatMulResult)
        (cfg : TritonGemmConfig) (budget measured : Nat) (r : MatMulResult),
      complexity_heuristic_value cfg ≤ kComplexityHeuristicLimit →
      gen cfg budget = .ok r →
      budget < measured →
      tritonWrapper gen cfg budget measured =
        .error (.resourceExhausted sharedMemLimitMsg)) := by
  constructor
  · intro idx64 info cfg budget a ha h1
    refine ⟨matMulImpl_error idx64 info cfg budget _
      (matMulChecks_shmem_error info cfg budget a ha h1), ?_, ?_⟩
    · refine ⟨"Requires too much shared memory: ".data,
        (" > " ++ toString budget).data, ?_⟩
      simp [requiresShmemMsg, String.data_append]
    · refine ⟨("Requires too much shared memory: " ++
        toString (required_shmem_size info cfg) ++ " > ").data, [], ?_⟩
      simp [requiresShmemMsg, String.data_append]
  · intro gen cfg budget measured r hheur hgen hm
    unfold tritonWrapper
    rw [if_neg (Nat.not_lt.mpr hheur)]
    rw [hgen]
    dsimp only
    rw [if_pos hm]

/-- C6 witness: the pre-emission rejection at a 524288-byte estimate
against a 98304-byte budget, and the post-emission rejection of a
measured footprint of 99999 bytes against the same budget. -/
theorem c6_shared_memory_checks_witness :
    analyzePre cInfo cCfgShmemHeavy = .ok cAnalysis ∧
    98304 < required_shmem_size cInfo cCfgShmemHeavy ∧
    matMulImpl false cInfo cCfgShmemHeavy 98304 =
      .error (.resourceExhausted (requiresShmemMsg 524288 98304)) ∧
    complexity_heuristic_value cCfg ≤ kComplexityHeuristicLimit ∧
    cGenerator cCfg 98304 = .ok cResult ∧
    tritonWrapper cGenerator cCfg 98304 99999 =
      .error (.resourceExhausted sharedMemLimitMsg) := by
  have ha : analyzePre cInfo cCfgShmemHeavy = .ok cAnalysis := rfl
  have hg : cGenerator cCfg 98304 = .ok cResult := rfl
  refine ⟨ha, by decide, ?_, by decide, hg, ?_⟩
  · exact (c6_shared_memory_checks.1 false cInfo cCfgShmemHeavy 98304
      cAnalysis ha (by decide)).1
  · exact c6_shared_memory_checks.2 cGenerator cCfg 98304 99999 cResult
      (by decide) hg (by decide)

/-! ### C1 -/

/-- C1: the emitted reduction loop runs from 0 to
k = contracting extent × split_k in steps of block_k·split_k, carrying
the two operand address tiles and the block_m×block_n zero-initialised
accumulator as its three iteration arguments (advanced by
block_k·split_k·stride along the contracting strides each step).  When
k mod (block_k·split_k) ≠ 0, every iteration — the body is the same
function of the induction variable `ki` — builds boundary masks
comparing the contracting range `range_k` against the remaining length
k − ki, and both loads carry those masks with zero-tile fills; when k is
an exact multiple of the step, the masks and fills are null and the
loads are unconditional. -/
theorem c1_reduction_loop (idx64 : Bool) (info : DotInfo)
    (cfg : TritonGemmConfig) (budget : Nat) (r : MatMulResult)
    (h : matMulImpl idx64 info cfg budget = .ok r) :
    r.program.loop.lowerBound = 0 ∧
    r.program.loop.upperBound =
      ((info.lhs_contracting_size * cfg.split_k : Nat) : Int) ∧
    r.program.loop.step = ((cfg.block_k * cfg.split_k : Nat) : Int) ∧
    (∃ lb lo rb ro,
      r.program.loop.iterArgsInit =
        [Expr.addPtr lb lo, Expr.addPtr rb ro,
         Expr.cst (acc_ty info.root_ty (dot_ty info.lhs_ty info.rhs_ty)) 0
           [cfg.block_m, cfg.block_n]]) ∧
    (∀ ki args,
      (r.program.loop.body ki args).yields =
        [Expr.addPtr (args.getD 0 .nullv)
           (.cst (if idx64 then .i64 else .i32)
             (cfg.block_k * cfg.split_k * info.stride_lhs_k)
             [cfg.block_m, cfg.block_k]),
         Expr.addPtr (args.getD 1 .nullv)
           (.cst (if idx64 then .i64 else .i32)
             (cfg.block_k * cfg.split_k * info.stride_rhs_k)
             [cfg.block_k, cfg.block_n]),
         (r.program.loop.body ki args).acc_next] ∧
      ((info.lhs_contracting_size * cfg.split_k) %
          (cfg.block_k * cfg.split_k) ≠ 0 →
        (r.program.loop.body ki args).lhs_mask =
          Expr.bcast (.cmpSlt
            (.expandDims (Expr.addI
              (.splat (.mulI (.programId 2) (.cst .i32 cfg.block_k []))
                [cfg.block_k]) (.range cfg.block_k)) 0)
            (.splat (.subI
              (.cst .i32 ((info.lhs_contracting_size * cfg.split_k : Nat) : Int)
                []) ki)
              [1, cfg.block_k])) [cfg.block_m, cfg.block_k] ∧
        (r.program.loop.body ki args).rhs_mask =
          Expr.bcast (.cmpSlt
            (.expandDims (Expr.addI
              (.splat (.mulI (.programId 2) (.cst .i32 cfg.block_k []))
                [cfg.block_k]) (.range cfg.block_k)) 1)
            (.splat (.subI
              (.cst .i32 ((info.lhs_contracting_size * cfg.split_k : Nat) : Int)
                []) ki)
              [cfg.block_k, 1])) [cfg.block_k, cfg.block_n] ∧
        (r.program.loop.body ki args).lhs_tile =
          Expr.load (args.getD 0 .nullv)
            ((r.program.loop.body ki args).lhs_mask)
            (Expr.cst info.lhs_ty 0 [cfg.block_m, cfg.block_k]) ∧
        (r.program.loop.body ki args).rhs_tile =
          Expr.load (args.getD 1 .nullv)
            ((r.program.loop.body ki args).rhs_mask)
            (Expr.cst info.rhs_ty 0 [cfg.block_k, cfg.block_n])) ∧
      ((info.lhs_contracting_size * cfg.split_k) %
          (cfg.block_k * cfg.split_k) = 0 →
        (r.program.loop.body ki args).lhs_mask = .nullv ∧
        (r.program.loop.body ki args).rhs_mask = .nullv ∧
        (r.program.loop.body ki args).lhs_tile =
          Expr.load (args.getD 0 .nullv) .nullv .nullv ∧
        (r.program.loop.body ki args).rhs_tile =
          Expr.load (args.getD 1 .nullv) .nullv .nullv)) := by
  obtain ⟨a, -, rfl⟩ := matMulImpl_ok_elim idx64 info cfg budget r h
  refine ⟨rfl, rfl, rfl, ⟨_, _, _, _, rfl⟩, ?_⟩
  intro ki args
  refine ⟨rfl, ?_, ?_⟩
  · intro hne
    have hp : 0 < (info.lhs_contracting_size * cfg.split_k) %
        (cfg.block_k * cfg.split_k) := Nat.pos_of_ne_zero hne
    refine ⟨?_, ?_, ?_, ?_⟩ <;>
      simp only [matMulBuild, if_pos hp]
  · intro hz
    have hnp : ¬0 < (info.lhs_contracting_size * cfg.split_k) %
        (cfg.block_k * cfg.split_k) := by omega
    refine ⟨?_, ?_, ?_, ?_⟩ <;>
      simp only [matMulBuild, if_neg hnp]

/-- C1 witness: for the 80×40×48 GEMM with block_k·split_k = 16,
k = 40 is not a multiple of the step, and the loop has bounds 0..40
step 16 with a masked body. -/
theorem c1_reduction_loop_witness :
    matMulImpl false cInfo cCfg 98304 = .ok cResult ∧
    (40 % 16 ≠ 0) ∧
    cResult.program.loop.lowerBound = 0 ∧
    cResult.program.loop.upperBound = 40 ∧
    cResult.program.loop.step = 16 ∧
    (cResult.program.loop.body (Expr.cst .i32 0 [])
      [Expr.nullv, Expr.nullv, Expr.nullv]).lhs_mask ≠ Expr.nullv := by
  have h : matMulImpl false cInfo cCfg 98304 = .ok cResult := rfl
  obtain ⟨h1, h2, h3, -, h5⟩ :=
    c1_reduction_loop false cInfo cCfg 98304 cResult h
  obtain ⟨-, hm, -⟩ :=
    h5 (Expr.cst .i32 0 []) [Expr.nullv, Expr.nullv, Expr.nullv]
  have hmask := hm (by decide)
  refine ⟨h, by decide, h1, h2, h3, ?_⟩
  rw [hmask.1]
  decide

/-! ### C9 -/

/-- C9: for every program-instance id `pid_nc` in `[0, grid_m·grid_n)`,
the swizzle decode of `ir_emitter_triton.cc:560-566,608-618` is
well-defined and in range: the selected group size
`min(grid_m − 8·(pid_nc div (8·grid_n)), 8)` is at least 1 — so the
signed division and remainder by it never divide by zero — and the
decoded coordinates satisfy `0 ≤ pid_m < grid_m` and
`0 ≤ pid_n < grid_n`. -/
theorem c9_swizzle_decode_in_range (grid_m grid_n : Nat) (pid_nc : Int)
    (h0 : 0 ≤ pid_nc) (h1 : pid_nc < (grid_m : Int) * (grid_n : Int)) :
    1 ≤ group_size grid_m grid_n pid_nc ∧
    0 ≤ pid_m grid_m grid_n pid_nc ∧
    pid_m grid_m grid_n pid_nc < (grid_m : Int) ∧
    0 ≤ pid_n grid_m grid_n pid_nc ∧
    pid_n grid_m grid_n pid_nc < (grid_n : Int) := by
  have hprod : 0 < (grid_m : Int) * (grid_n : Int) := lt_of_le_of_lt h0 h1
  have hgn : 0 < (grid_n : Int) := by
    rcases Nat.eq_zero_or_pos grid_n with hz | hp
    · subst hz; simp at hprod
    · exact_mod_cast hp
  have hgm : 0 < (grid_m : Int) := by
    rcases Nat.eq_zero_or_pos grid_m with hz | hp
    · subst hz; simp at hprod
    · exact_mod_cast hp
  have hw8 : width grid_n = 8 * (grid_n : Int) := by simp [width, group_m]
  have hw : (0 : Int) < width grid_n := by rw [hw8]; positivity
  have hqr : width grid_n * (pid_nc / width grid_n) +
      pid_nc % width grid_n = pid_nc := Int.ediv_add_emod pid_nc _
  have hrr0 : 0 ≤ pid_nc % width grid_n :=
    Int.emod_nonneg pid_nc (ne_of_gt hw)
  have hrrw : pid_nc % width grid_n < width grid_n :=
    Int.emod_lt_of_pos pid_nc hw
  have hq0 : 0 ≤ pid_nc / width grid_n := Int.ediv_nonneg h0 (le_of_lt hw)
  have hf : first_pid_m grid_n pid_nc = pid_nc / width grid_n * 8 := by
    unfold first_pid_m group_id
    rw [Int.tdiv_eq_ediv h0 (le_of_lt hw)]
    norm_num [group_m]
  have h8q : pid_nc / width grid_n * 8 < (grid_m : Int) := by
    have hle : width grid_n * (pid_nc / width grid_n) ≤ pid_nc := by
      linarith
    have hlt : width grid_n * (pid_nc / width grid_n) <
        (grid_m : Int) * grid_n := lt_of_le_of_lt hle h1
    rw [hw8] at hlt
    nlinarith
  have hGdef : group_size grid_m grid_n pid_nc =
      if (grid_m : Int) - pid_nc / width grid_n * 8 < 8
      then (grid_m : Int) - pid_nc / width grid_n * 8 else 8 := by
    simp only [group_size]
    rw [hf]
    norm_num [group_m]
  have hGfacts : 1 ≤ group_size grid_m grid_n pid_nc ∧
      pid_nc / width grid_n * 8 + group_size grid_m grid_n pid_nc ≤
        (grid_m : Int) ∧
      pid_nc % width grid_n <
        (grid_n : Int) * group_size grid_m grid_n pid_nc := by
    rw [hGdef]
    by_cases hc : (grid_m : Int) - pid_nc / width grid_n * 8 < 8
    · rw [if_pos hc]
      refine ⟨by linarith, by linarith, ?_⟩
      have hring : (grid_n : Int) *
          ((grid_m : Int) - pid_nc / width grid_n * 8) =
          (grid_m : Int) * grid_n -
            (8 * (grid_n : Int)) * (pid_nc / width grid_n) := by ring
      rw [hring, ← hw8]
      linarith
    · rw [if_neg hc]
      refine ⟨by norm_num, by linarith, ?_⟩
      have : (grid_n : Int) * 8 = 8 * (grid_n : Int) := by ring
      rw [this, ← hw8]
      exact hrrw
  obtain ⟨hG1, hGle, hGr⟩ := hGfacts
  have hG0 : (0 : Int) < group_size grid_m grid_n pid_nc := by linarith
  have htm : Int.tmod pid_nc (group_size grid_m grid_n pid_nc) =
      pid_nc % group_size grid_m grid_n pid_nc :=
    Int.tmod_eq_emod h0 (le_of_lt hG0)
  have hm0 : 0 ≤ pid_nc % group_size grid_m grid_n pid_nc :=
    Int.emod_nonneg pid_nc (ne_of_gt hG0)
  have hmG : pid_nc % group_size grid_m grid_n pid_nc <
      group_size grid_m grid_n pid_nc := Int.emod_lt_of_pos pid_nc hG0
  have hpm : pid_m grid_m grid_n pid_nc =
      pid_nc / width grid_n * 8 +
        pid_nc % group_size grid_m grid_n pid_nc := by
    unfold pid_m
    rw [hf, htm]
  have hpn : pid_n grid_m grid_n pid_nc =
      pid_nc % width grid_n / group_size grid_m grid_n pid_nc := by
    unfold pid_n
    rw [Int.tmod_eq_emod h0 (le_of_lt hw)]
    exact Int.tdiv_eq_ediv hrr0 (le_of_lt hG0)
  refine ⟨hG1, ?_, ?_, ?_, ?_⟩
  · rw [hpm]; linarith
  · rw [hpm]; linarith
  · rw [hpn]; exact Int.ediv_nonneg hrr0 (le_of_lt hG0)
  · rw [hpn]
    rw [Int.ediv_lt_iff_lt_mul hG0]
    exact hGr

/-- C9 witness: the decode at grid_m = 5, grid_n = 3, pid_nc = 14:
group size 5, pid_m = 4 < 5, pid_n = 2 < 3. -/
theorem c9_swizzle_decode_in_range_witness :
    1 ≤ group_size 5 3 14 ∧
    pid_m 5 3 14 < ((5 : Nat) : Int) ∧
    pid_n 5 3 14 < ((3 : Nat) : Int) := by
  have h := c9_swizzle_decode_in_range 5 3 14 (by decide) (by decide)
  exact ⟨h.1, h.2.2.1, h.2.2.2.2⟩

/-! ### C8 helper lemmas -/

theorem walkStep_ok_elim {p : WalkParams} {i : Nat} {acc : Int}
    {s : OutStrides} {r : Int × OutStrides}
    (h : walkStep p i acc s = .ok r) :
    r.1 = acc * (p.out_dims.getD i 0 : Int) ∧
    (((i : Int) = p.rhs_nc_out_idx ∧
        r.2 = { s with stride_out_n := acc }) ∨
     ((i : Int) ≠ p.rhs_nc_out_idx ∧ (i : Int) = p.lhs_nc_out_idx ∧
        r.2 = { s with stride_out_m := acc
                       stride_out_batch :=
                         if p.lhs_nc_split then acc * p.m_minor
                         else s.stride_out_batch }) ∨
     ((i : Int) ≠ p.rhs_nc_out_idx ∧ (i : Int) ≠ p.lhs_nc_out_idx ∧
        (i : Int) = p.split_k_out_idx ∧
        r.2 = { s with stride_out_split_k := acc }) ∨
     ((i : Int) ≠ p.rhs_nc_out_idx ∧ (i : Int) ≠ p.lhs_nc_out_idx ∧
        (i : Int) ≠ p.split_k_out_idx ∧ (i : Int) = p.batch_out_idx ∧
        r.2 = { s with stride_out_batch := acc })) := by
  simp only [walkStep] at h
  by_cases h1 : (i : Int) = p.rhs_nc_out_idx
  · rw [if_pos h1] at h
    by_cases h2 : p.out_dims.getD i 0 = p.n
    · rw [if_pos h2] at h
      injection h with h'
      subst h'
      exact ⟨rfl, Or.inl ⟨h1, rfl⟩⟩
    · rw [if_neg h2] at h; simp at h
  · rw [if_neg h1] at h
    by_cases h3 : (i : Int) = p.lhs_nc_out_idx
    · rw [if_pos h3] at h
      by_cases h4 : p.out_dims.getD i 0 = p.m_full
      · rw [if_pos h4] at h
        injection h with h'
        subst h'
        exact ⟨rfl, Or.inr (Or.inl ⟨h1, h3, rfl⟩)⟩
      · rw [if_neg h4] at h; simp at h
    · rw [if_neg h3] at h
      by_cases h5 : (i : Int) = p.split_k_out_idx
      · rw [if_pos h5] at h
        by_cases h6 : p.out_dims.getD i 0 = p.split_k
        · rw [if_pos h6] at h
          injection h with h'
          subst h'
          exact ⟨rfl, Or.inr (Or.inr (Or.inl ⟨h1, h3, h5, rfl⟩))⟩
        · rw [if_neg h6] at h; simp at h
      · rw [if_neg h5] at h
        by_cases h7 : (i : Int) = p.batch_out_idx
        · rw [if_pos h7] at h
          by_cases h8 : p.out_dims.getD i 0 = p.batch_size
          · rw [if_pos h8] at h
            injection h with h'
            subst h'
            exact ⟨rfl, Or.inr (Or.inr (Or.inr ⟨h1, h3, h5, h7, rfl⟩))⟩
          · rw [if_neg h8] at h; simp at h
        · rw [if_neg h7] at h; simp at h

theorem walkStep_unexpected {p : WalkParams} {i : Nat} (acc : Int)
    (s : OutStrides)
    (h1 : (i : Int) ≠ p.rhs_nc_out_idx) (h2 : (i : Int) ≠ p.lhs_nc_out_idx)
    (h3 : (i : Int) ≠ p.split_k_out_idx) (h4 : (i : Int) ≠ p.batch_out_idx) :
    walkStep p i acc s = .error (.checkFail "Unexpected dimension") := by
  simp only [walkStep]
  rw [if_neg h1, if_neg h2, if_neg h3, if_neg h4]

theorem walkStep_not_re (p : WalkParams) (i : Nat) (acc : Int)
    (s : OutStrides) : isResourceExhausted (walkStep p i acc s) = false := by
  simp only [walkStep]
  split_ifs <;> rfl

theorem outStrideWalk_not_re (p : WalkParams) (l : List Nat) :
    ∀ acc s, isResourceExhausted (outStrideWalk p l acc s) = false := by
  induction l with
  | nil => intro acc s; rfl
  | cons i rest ih =>
    intro acc s
    simp only [outStrideWalk]
    cases hw : walkStep p i acc s with
    | ok r => exact ih r.1 r.2
    | error e =>
      have hnotre := walkStep_not_re p i acc s
      rw [hw] at hnotre
      exact hnotre

theorem outStrideWalk_ok_acc (p : WalkParams) (l : List Nat) :
    ∀ acc s r, outStrideWalk p l acc s = .ok r →
      r.1 = acc * sizeProd p l := by
  induction l with
  | nil =>
    intro acc s r h
    simp only [outStrideWalk] at h
    injection h with h'
    subst h'
    simp [sizeProd]
  | cons i rest ih =>
    intro acc s r h
    simp only [outStrideWalk] at h
    cases hw : walkStep p i acc s with
    | error e => rw [hw] at h; simp at h
    | ok r1 =>
      rw [hw] at h
      dsimp only at h
      have h1 := (walkStep_ok_elim hw).1
      have h2 := ih r1.1 r1.2 r h
      rw [h2, h1]
      simp [sizeProd, mul_assoc]

theorem outStrideWalk_append (p : WalkParams) (l1 l2 : List Nat) :
    ∀ acc s, outStrideWalk p (l1 ++ l2) acc s =
      match outStrideWalk p l1 acc s with
      | .ok r => outStrideWalk p l2 r.1 r.2
      | .error e => .error e := by
  induction l1 with
  | nil => intro acc s; simp [outStrideWalk]
  | cons i rest ih =>
    intro acc s
    simp only [List.cons_append, outStrideWalk]
    cases hw : walkStep p i acc s with
    | ok r => exact ih r.1 r.2
    | error e => rfl

theorem outStrideWalk_preserve_n (p : WalkParams) (l : List Nat) :
    ∀ acc s r, (∀ j ∈ l, (j : Int) ≠ p.rhs_nc_out_idx) →
      outStrideWalk p l acc s = .ok r →
      r.2.stride_out_n = s.stride_out_n := by
  induction l with
  | nil =>
    intro acc s r _ h
    simp only [outStrideWalk] at h
    injection h with h'
    subst h'
    rfl
  | cons i rest ih =>
    intro acc s r hl h
    simp only [outStrideWalk] at h
    cases hw : walkStep p i acc s with
    | error e => rw [hw] at h; simp at h
    | ok r1 =>
      rw [hw] at h
      dsimp only at h
      have hi : (i : Int) ≠ p.rhs_nc_out_idx := hl i (List.mem_cons_self i rest)
      have hrest : ∀ j ∈ rest, (j : Int) ≠ p.rhs_nc_out_idx :=
        fun j hj => hl j (List.mem_cons_of_mem i hj)
      have hr1 := ih r1.1 r1.2 r hrest h
      rw [hr1]
      rcases (walkStep_ok_elim hw).2 with ⟨h1, -⟩ | ⟨-, -, hs⟩ |
        ⟨-, -, -, hs⟩ | ⟨-, -, -, -, hs⟩
      · exact absurd h1 hi
      · rw [hs]
      · rw [hs]
      · rw [hs]

theorem outStrideWalk_preserve_m (p : WalkParams) (l : List Nat) :
    ∀ acc s r, (∀ j ∈ l, (j : Int) ≠ p.lhs_nc_out_idx) →
      outStrideWalk p l acc s = .ok r →
      r.2.stride_out_m = s.stride_out_m := by
  induction l with
  | nil =>
    intro acc s r _ h
    simp only [outStrideWalk] at h
    injection h with h'
    subst h'
    rfl
  | cons i rest ih =>
    intro acc s r hl h
    simp only [outStrideWalk] at h
    cases hw : walkStep p i acc s with
    | error e => rw [hw] at h; simp at h
    | ok r1 =>
      rw [hw] at h
      dsimp only at h
      have hi : (i : Int) ≠ p.lhs_nc_out_idx := hl i (List.mem_cons_self i rest)
      have hrest : ∀ j ∈ rest, (j : Int) ≠ p.lhs_nc_out_idx :=
        fun j hj => hl j (List.mem_cons_of_mem i hj)
      have hr1 := ih r1.1 r1.2 r hrest h
      rw [hr1]
      rcases (walkStep_ok_elim hw).2 with ⟨-, hs⟩ | ⟨-, h2, -⟩ |
        ⟨-, -, -, hs⟩ | ⟨-, -, -, -, hs⟩
      · rw [hs]
      · exact absurd h2 hi
      · rw [hs]
      · rw [hs]

theorem outStrideWalk_preserve_split (p : WalkParams) (l : List Nat) :
    ∀ acc s r, (∀ j ∈ l, (j : Int) ≠ p.split_k_out_idx) →
      outStrideWalk p l acc s = .ok r →
      r.2.stride_out_split_k = s.stride_out_split_k := by
  induction l with
  | nil =>
    intro acc s r _ h
    simp only [outStrideWalk] at h
    injection h with h'
    subst h'
    rfl
  | cons i rest ih =>
    intro acc s r hl h
    simp only [outStrideWalk] at h
    cases hw : walkStep p i acc s with
    | error e => rw [hw] at h; simp at h
    | ok r1 =>
      rw [hw] at h
      dsimp only at h
      have hi : (i : Int) ≠ p.split_k_out_idx :=
        hl i (List.mem_cons_self i rest)
      have hrest : ∀ j ∈ rest, (j : Int) ≠ p.split_k_out_idx :=
        fun j hj => hl j (List.mem_cons_of_mem i hj)
      have hr1 := ih r1.1 r1.2 r hrest h
      rw [hr1]
      rcases (walkStep_ok_elim hw).2 with ⟨-, hs⟩ | ⟨-, -, hs⟩ |
        ⟨-, -, h3, -⟩ | ⟨-, -, -, -, hs⟩
      · rw [hs]
      · rw [hs]
      · exact absurd h3 hi
      · rw [hs]

theorem outStrideWalk_preserve_batch (p : WalkParams) (l : List Nat) :
    ∀ acc s r, (∀ j ∈ l, (j : Int) ≠ p.batch_out_idx) →
      (∀ j ∈ l, p.lhs_nc_split = true → (j : Int) ≠ p.lhs_nc_out_idx) →
      outStrideWalk p l acc s = .ok r →
      r.2.stride_out_batch = s.stride_out_batch := by
  induction l with
  | nil =>
    intro acc s r _ _ h
    simp only [outStrideWalk] at h
    injection h with h'
    subst h'
    rfl
  | cons i rest ih =>
    intro acc s r hb hlb h
    simp only [outStrideWalk] at h
    cases hw : walkStep p i acc s with
    | error e => rw [hw] at h; simp at h
    | ok r1 =>
      rw [hw] at h
      dsimp only at h
      have hbi : (i : Int) ≠ p.batch_out_idx := hb i (List.mem_cons_self i rest)
      have hbrest : ∀ j ∈ rest, (j : Int) ≠ p.batch_out_idx :=
        fun j hj => hb j (List.mem_cons_of_mem i hj)
      have hlbi := hlb i (List.mem_cons_self i rest)
      have hlbrest : ∀ j ∈ rest, p.lhs_nc_split = true →
          (j : Int) ≠ p.lhs_nc_out_idx :=
        fun j hj => hlb j (List.mem_cons_of_mem i hj)
      have hr1 := ih r1.1 r1.2 r hbrest hlbrest h
      rw [hr1]
      rcases (walkStep_ok_elim hw).2 with ⟨-, hs⟩ | ⟨-, h2, hs⟩ |
        ⟨-, -, -, hs⟩ | ⟨-, -, -, h4, -⟩
      · rw [hs]
      · cases hsplit : p.lhs_nc_split with
        | true => exact absurd h2 (hlbi hsplit)
        | false => rw [hs]; simp [hsplit]
      · rw [hs]
      · exact absurd h4 hbi

theorem outStrideWalk_assign_n (p : WalkParams) (pre post : List Nat)
    (idx : Nat) (acc : Int) (s : OutStrides) (r : Int × OutStrides)
    (hidx : (idx : Int) = p.rhs_nc_out_idx)
    (hpost : ∀ j ∈ post, (j : Int) ≠ p.rhs_nc_out_idx)
    (h : outStrideWalk p (pre ++ idx :: post) acc s = .ok r) :
    r.2.stride_out_n = acc * sizeProd p pre := by
  rw [outStrideWalk_append] at h
  cases hw : outStrideWalk p pre acc s with
  | error e => rw [hw] at h; simp at h
  | ok r1 =>
    rw [hw] at h
    dsimp only at h
    simp only [outStrideWalk] at h
    cases hs : walkStep p idx r1.1 r1.2 with
    | error e => rw [hs] at h; simp at h
    | ok r2 =>
      rw [hs] at h
      dsimp only at h
      have hacc := outStrideWalk_ok_acc p pre acc s r1 hw
      rcases (walkStep_ok_elim hs).2 with ⟨-, hrec⟩ | ⟨hne, -⟩ |
        ⟨hne, -⟩ | ⟨hne, -⟩
      · have hpres := outStrideWalk_preserve_n p post r2.1 r2.2 r hpost h
        rw [hpres, hrec]
        exact hacc
      · exact absurd hidx hne
      · exact absurd hidx hne
      · exact absurd hidx hne

theorem outStrideWalk_assign_m (p : WalkParams) (pre post : List Nat)
    (idx : Nat) (acc : Int) (s : OutStrides) (r : Int × OutStrides)
    (hner : (idx : Int) ≠ p.rhs_nc_out_idx)
    (hidx : (idx : Int) = p.lhs_nc_out_idx)
    (hpost : ∀ j ∈ post, (j : Int) ≠ p.lhs_nc_out_idx)
    (h : outStrideWalk p (pre ++ idx :: post) acc s = .ok r) :
    r.2.stride_out_m = acc * sizeProd p pre := by
  rw [outStrideWalk_append] at h
  cases hw : outStrideWalk p pre acc s with
  | error e => rw [hw] at h; simp at h
  | ok r1 =>
    rw [hw] at h
    dsimp only at h
    simp only [outStrideWalk] at h
    cases hs : walkStep p idx r1.1 r1.2 with
    | error e => rw [hs] at h; simp at h
    | ok r2 =>
      rw [hs] at h
      dsimp only at h
      have hacc := outStrideWalk_ok_acc p pre acc s r1 hw
      rcases (walkStep_ok_elim hs).2 with ⟨hne, -⟩ | ⟨-, -, hrec⟩ |
        ⟨-, hne, -⟩ | ⟨-, hne, -⟩
      · exact absurd hne hner
      · have hpres := outStrideWalk_preserve_m p post r2.1 r2.2 r hpost h
        rw [hpres, hrec]
        exact hacc
      · exact absurd hidx hne
      · exact absurd hidx hne

theorem outStrideWalk_assign_split (p : WalkParams) (pre post : List Nat)
    (idx : Nat) (acc : Int) (s : OutStrides) (r : Int × OutStrides)
    (hner : (idx : Int) ≠ p.rhs_nc_out_idx)
    (hnel : (idx : Int) ≠ p.lhs_nc_out_idx)
    (hidx : (idx : Int) = p.split_k_out_idx)
    (hpost : ∀ j ∈ post, (j : Int) ≠ p.split_k_out_idx)
    (h : outStrideWalk p (pre ++ idx :: post) acc s = .ok r) :
    r.2.stride_out_split_k = acc * sizeProd p pre := by
  rw [outStrideWalk_append] at h
  cases hw : outStrideWalk p pre acc s with
  | error e => rw [hw] at h; simp at h
  | ok r1 =>
    rw [hw] at h
    dsimp only at h
    simp only [outStrideWalk] at h
    cases hs : walkStep p idx r1.1 r1.2 with
    | error e => rw [hs] at h; simp at h
    | ok r2 =>
      rw [hs] at h
      dsimp only at h
      have hacc := outStrideWalk_ok_acc p pre acc s r1 hw
      rcases (walkStep_ok_elim hs).2 with ⟨he, -⟩ | ⟨-, he, -⟩ |
        ⟨-, -, -, hrec⟩ | ⟨-, -, hne, -⟩
      · exact absurd he hner
      · exact absurd he hnel
      · have hpres :=
          outStrideWalk_preserve_split p post r2.1 r2.2 r hpost h
        rw [hpres, hrec]
        exact hacc
      · exact absurd hidx hne

theorem outStrideWalk_assign_batch (p : WalkParams) (pre post : List Nat)
    (idx : Nat) (acc : Int) (s : OutStrides) (r : Int × OutStrides)
    (hsplit : p.lhs_nc_split = false)
    (hner : (idx : Int) ≠ p.rhs_nc_out_idx)
    (hnel : (idx : Int) ≠ p.lhs_nc_out_idx)
    (hnes : (idx : Int) ≠ p.split_k_out_idx)
    (hidx : (idx : Int) = p.batch_out_idx)
    (hpost : ∀ j ∈ post, (j : Int) ≠ p.batch_out_idx)
    (h : outStrideWalk p (pre ++ idx :: post) acc s = .ok r) :
    r.2.stride_out_batch = acc * sizeProd p pre := by
  rw [outStrideWalk_append] at h
  cases hw : outStrideWalk p pre acc s with
  | error e => rw [hw] at h; simp at h
  | ok r1 =>
    rw [hw] at h
    dsimp only at h
    simp only [outStrideWalk] at h
    cases hs : walkStep p idx r1.1 r1.2 with
    | error e => rw [hs] at h; simp at h
    | ok r2 =>
      rw [hs] at h
      dsimp only at h
      have hacc := outStrideWalk_ok_acc p pre acc s r1 hw
      rcases (walkStep_ok_elim hs).2 with ⟨he, -⟩ | ⟨-, he, -⟩ |
        ⟨-, -, he, -⟩ | ⟨-, -, -, -, hrec⟩
      · exact absurd he hner
      · exact absurd he hnel
      · exact absurd he hnes
      · have hlb : ∀ j ∈ post, p.lhs_nc_split = true →
            (j : Int) ≠ p.lhs_nc_out_idx := by
          intro j _ hc
          rw [hsplit] at hc
          exact absurd hc (by simp)
        have hpres :=
          outStrideWalk_preserve_batch p post r2.1 r2.2 r hpost hlb h
        rw [hpres, hrec]
        exact hacc

theorem outStrideWalk_assign_batch_of_split (p : WalkParams)
    (pre post : List Nat) (idx : Nat) (acc : Int) (s : OutStrides)
    (r : Int × OutStrides)
    (hsplit : p.lhs_nc_split = true)
    (hner : (idx : Int) ≠ p.rhs_nc_out_idx)
    (hidx : (idx : Int) = p.lhs_nc_out_idx)
    (hpostb : ∀ j ∈ post, (j : Int) ≠ p.batch_out_idx)
    (hpostl : ∀ j ∈ post, (j : Int) ≠ p.lhs_nc_out_idx)
    (h : outStrideWalk p (pre ++ idx :: post) acc s = .ok r) :
    r.2.stride_out_batch = acc * sizeProd p pre * p.m_minor := by
  rw [outStrideWalk_append] at h
  cases hw : outStrideWalk p pre acc s with
  | error e => rw [hw] at h; simp at h
  | ok r1 =>
    rw [hw] at h
    dsimp only at h
    simp only [outStrideWalk] at h
    cases hs : walkStep p idx r1.1 r1.2 with
    | error e => rw [hs] at h; simp at h
    | ok r2 =>
      rw [hs] at h
      dsimp only at h
      have hacc := outStrideWalk_ok_acc p pre acc s r1 hw
      rcases (walkStep_ok_elim hs).2 with ⟨he, -⟩ | ⟨-, -, hrec⟩ |
        ⟨-, he, -⟩ | ⟨-, he, -⟩
      · exact absurd he hner
      · have hlb : ∀ j ∈ post, p.lhs_nc_split = true →
            (j : Int) ≠ p.lhs_nc_out_idx := fun j hj _ => hpostl j hj
        have hpres :=
          outStrideWalk_preserve_batch p post r2.1 r2.2 r hpostb hlb h
        rw [hpres, hrec]
        simp only [hsplit, if_pos]
        rw [hacc]
      · exact absurd hidx he
      · exact absurd hidx he

/-! ### C8 -/

/-- C8: output strides are computed by walking the layout minor-to-major
with a running size accumulator.  For each classified axis (n, m,
split-K, batch) the assigned stride equals the product of the sizes of
the strictly more-minor output dimensions (the segment of the layout
before the axis); for a split LHS non-contracting dimension, the batch
stride is the m stride times the minor part length `m_minor`.  An
unclassifiable dimension hits the fatal `CHECK(false)` — a precondition
violation, never a recoverable ResourceExhausted (the walk can produce
no ResourceExhausted at all).  On every input accepted by the
computation's own post-checks — the spec's criterion for declared roles
being consistent with the layout — the m/n strides are ≥ 1 and the
split/batch strides, when those axes exist, are > 1. -/
theorem c8_output_strides :
    (∀ (p : WalkParams) (pre post : List Nat) (idx : Nat)
        (r : Int × OutStrides),
      (idx : Int) = p.rhs_nc_out_idx →
      (∀ j ∈ post, (j : Int) ≠ p.rhs_nc_out_idx) →
      outStrideWalk p (pre ++ idx :: post) 1 ⟨0, 0, 0, 0⟩ = .ok r →
      r.2.stride_out_n = sizeProd p pre) ∧
    (∀ (p : WalkParams) (pre post : List Nat) (idx : Nat)
        (r : Int × OutStrides),
      (idx : Int) ≠ p.rhs_nc_out_idx →
      (idx : Int) = p.lhs_nc_out_idx →
      (∀ j ∈ post, (j : Int) ≠ p.lhs_nc_out_idx) →
      outStrideWalk p (pre ++ idx :: post) 1 ⟨0, 0, 0, 0⟩ = .ok r →
      r.2.stride_out_m = sizeProd p pre) ∧
    (∀ (p : WalkParams) (pre post : List Nat) (idx : Nat)
        (r : Int × OutStrides),
      (idx : Int) ≠ p.rhs_nc_out_idx →
      (idx : Int) ≠ p.lhs_nc_out_idx →
      (idx : Int) = p.split_k_out_idx →
      (∀ j ∈ post, (j : Int) ≠ p.split_k_out_idx) →
      outStrideWalk p (pre ++ idx :: post) 1 ⟨0, 0, 0, 0⟩ = .ok r →
      r.2.stride_out_split_k = sizeProd p pre) ∧
    (∀ (p : WalkParams) (pre post : List Nat) (idx : Nat)
        (r : Int × OutStrides),
      p.lhs_nc_split = false →
      (idx : Int) ≠ p.rhs_nc_out_idx →
      (idx : Int) ≠ p.lhs_nc_out_idx →
      (idx : Int) ≠ p.split_k_out_idx →
      (idx : Int) = p.batch_out_idx →
      (∀ j ∈ post, (j : Int) ≠ p.batch_out_idx) →
      outStrideWalk p (pre ++ idx :: post) 1 ⟨0, 0, 0, 0⟩ = .ok r →
      r.2.stride_out_batch = sizeProd p pre) ∧
    (∀ (p : WalkParams) (pre post : List Nat) (idx : Nat)
        (r : Int × OutStrides),
      p.lhs_nc_split = true →
      (idx : Int) ≠ p.rhs_nc_out_idx →
      (idx : Int) = p.lhs_nc_out_idx →
      (∀ j ∈ post, (j : Int) ≠ p.batch_out_idx) →
      (∀ j ∈ post, (j : Int) ≠ p.lhs_nc_out_idx) →
      outStrideWalk p (pre ++ idx :: post) 1 ⟨0, 0, 0, 0⟩ = .ok r →
      r.2.stride_out_batch = sizeProd p pre * p.m_minor) ∧
    (∀ (p : WalkParams) (i : Nat) (acc : Int) (s : OutStrides),
      (i : Int) ≠ p.rhs_nc_out_idx → (i : Int) ≠ p.lhs_nc_out_idx →
      (i : Int) ≠ p.split_k_out_idx → (i : Int) ≠ p.batch_out_idx →
      walkStep p i acc s = .error (.checkFail "Unexpected dimension")) ∧
    (∀ (p : WalkParams) (l : List Nat) (acc : Int) (s : OutStrides),
      isResourceExhausted (outStrideWalk p l acc s) = false) ∧
    (∀ (info : DotInfo) (cfg : TritonGemmConfig) (bs mf : Nat)
        (s : OutStrides),
      computeOutStrides info cfg bs mf = .ok s →
      1 ≤ s.stride_out_m ∧ 1 ≤ s.stride_out_n ∧
      (cfg.split_k > 1 → 1 < s.stride_out_split_k) ∧
      ((info.have_batch || info.lhs_nc_split) = true →
        1 < s.stride_out_batch)) := by
  refine ⟨?_, ?_, ?_, ?_, ?_, ?_, ?_, ?_⟩
  · intro p pre post idx r hidx hpost h
    have hh := outStrideWalk_assign_n p pre post idx 1 ⟨0, 0, 0, 0⟩ r
      hidx hpost h
    rwa [one_mul] at hh
  · intro p pre post idx r hner hidx hpost h
    have hh := outStrideWalk_assign_m p pre post idx 1 ⟨0, 0, 0, 0⟩ r
      hner hidx hpost h
    rwa [one_mul] at hh
  · intro p pre post idx r hner hnel hidx hpost h
    have hh := outStrideWalk_assign_split p pre post idx 1 ⟨0, 0, 0, 0⟩ r
      hner hnel hidx hpost h
    rwa [one_mul] at hh
  · intro p pre post idx r hsplit hner hnel hnes hidx hpost h
    have hh := outStrideWalk_assign_batch p pre post idx 1 ⟨0, 0, 0, 0⟩ r
      hsplit hner hnel hnes hidx hpost h
    rwa [one_mul] at hh
  · intro p pre post idx r hsplit hner hidx hpostb hpostl h
    have hh := outStrideWalk_assign_batch_of_split p pre post idx 1
      ⟨0, 0, 0, 0⟩ r hsplit hner hidx hpostb hpostl h
    rwa [one_mul] at hh
  · exact fun p i acc s h1 h2 h3 h4 => walkStep_unexpected acc s h1 h2 h3 h4
  · exact fun p l acc s => outStrideWalk_not_re p l acc s
  · intro info cfg bs mf s h
    unfold computeOutStrides at h
    cases hw : outStrideWalk (mkWalkParams info cfg bs mf)
        info.out_minor_to_major 1 ⟨0, 0, 0, 0⟩ with
    | error e => rw [hw] at h; simp at h
    | ok r =>
      rw [hw] at h
      dsimp only at h
      by_cases h1 : 1 ≤ r.2.stride_out_m
      · rw [if_pos h1] at h
        by_cases h2 : 1 ≤ r.2.stride_out_n
        · rw [if_pos h2] at h
          by_cases h3 : cfg.split_k > 1 → 1 < r.2.stride_out_split_k
          · rw [if_pos h3] at h
            by_cases h4 : (info.have_batch || info.lhs_nc_split) = true
            · rw [if_pos h4] at h
              by_cases h5 : 1 < r.2.stride_out_batch
              · rw [if_pos h5] at h
                injection h with h'
                subst h'
                exact ⟨h1, h2, h3, fun _ => h5⟩
              · rw [if_neg h5] at h; simp at h
            · rw [if_neg h4] at h
              injection h with h'
              subst h'
              exact ⟨h1, h2, h3, fun hb => absurd hb h4⟩
          · rw [if_neg h3] at h; simp at h
        · rw [if_neg h2] at h; simp at h
      · rw [if_neg h1] at h; simp at h

/-- C8 witness: for the row-major 80×48 output ([n-axis, m-axis] walk
order), the n stride is the empty product 1, and the full computation
accepts the input with strides (48, 1). -/
theorem c8_output_strides_witness :
    ((1 : Nat) : Int) = (mkWalkParams cInfo cCfg 1 80).rhs_nc_out_idx ∧
    outStrideWalk (mkWalkParams cInfo cCfg 1 80) [1, 0] 1 ⟨0, 0, 0, 0⟩ =
      .ok (3840, cAnalysis.outs) ∧
    cAnalysis.outs.stride_out_n =
      sizeProd (mkWalkParams cInfo cCfg 1 80) [] ∧
    computeOutStrides cInfo cCfg 1 80 = .ok cAnalysis.outs ∧
    1 ≤ cAnalysis.outs.stride_out_m := by
  have hidx : ((1 : Nat) : Int) =
      (mkWalkParams cInfo cCfg 1 80).rhs_nc_out_idx := by decide
  have hpost : ∀ j ∈ [0], ((j : Nat) : Int) ≠
      (mkWalkParams cInfo cCfg 1 80).rhs_nc_out_idx := by decide
  have hw : outStrideWalk (mkWalkParams cInfo cCfg 1 80) [1, 0] 1
      ⟨0, 0, 0, 0⟩ = .ok (3840, cAnalysis.outs) := by rfl
  have hco : computeOutStrides cInfo cCfg 1 80 = .ok cAnalysis.outs := by rfl
  refine ⟨hidx, hw, ?_, hco, ?_⟩
  · exact c8_output_strides.1 (mkWalkParams cInfo cCfg 1 80) [] [0] 1
      (3840, cAnalysis.outs) hidx hpost hw
  · exact (c8_output_strides.2.2.2.2.2.2.2 cInfo cCfg 1 80
      cAnalysis.outs hco).1
